import Mathlib

/-!
Solar system simulation: kinematics, picking, camera focus, speed controls,
theme, frame clock.

A shallow embedding of `src/solar-system.js` (class `SolarSystem`).

Conventions of the embedding:

* JavaScript numbers are elements of a linearly ordered field `α` (exact
  arithmetic, no rounding, no `NaN`); statements that need `Math.sqrt`,
  `Math.cos`, `Math.sin` at their real meaning take `α = ℝ`.
* `Math.cos`, `Math.sin`, `OrbitControls.update`, `Number.prototype.toFixed`,
  `Date.now`, `Clock.getDelta`, the raycaster and the DOM layout are library or
  host code. They appear as parameters (`cos`, `sin`, `controlsUpdate`,
  `toFixed`) or as the data an event carries (`deltaTime`, `now`,
  `intersects`, `Layout`).
* A mutable object is a record; a method is a function from the record before
  to the record after.
-/

namespace SolarSystem

/-! ## Data model -/

/-- Three.js `Vector3`. -/
structure Vector3 (α : Type) where
  x : α
  y : α
  z : α

/-- One entry of `this.planetData` (lines 113-202). -/
structure PlanetData (α : Type) where
  name : String
  radius : α
  distance : α
  speed : α
  color : Nat
  rotationSpeed : α
  realDistance : α
  realPeriod : α
  realRadius : α

/-- A planet mesh: its `userData` (lines 268-278), `position` and `rotation.y`. -/
structure PlanetMesh (α : Type) where
  name : String
  orbitSpeed : α
  rotationSpeed : α
  distance : α
  angle : α
  realDistance : α
  realPeriod : α
  realRadius : α
  displayName : String
  position : Vector3 α
  rotationY : α

/-- The moon mesh: its `userData` (lines 339-346), `position` and `rotation.y`. -/
structure MoonMesh (α : Type) where
  name : String
  orbitSpeed : α
  angle : α
  displayName : String
  realRadius : α
  realDistance : α
  position : Vector3 α
  rotationY : α

/-- An orbit group: `userData.planet`, `userData.name` and, for the earth,
`userData.moon` (the moon orbit, whose `children[0]` is the moon mesh). -/
structure OrbitGroup (α : Type) where
  planet : PlanetMesh α
  name : String
  moon : Option (MoonMesh α)

/-- An element of `this.planetMeshes`, the objects the raycaster can return. -/
inductive Mesh (α : Type) where
  | sun : Mesh α
  | planet : PlanetMesh α → Mesh α
  | moon : MoonMesh α → Mesh α

/-- The tooltip panel: the `visible` class, the four text fields (a number
field that shows `N/A` is `none`) and `style.left`, `style.top` in pixels. -/
structure Tooltip (α : Type) where
  visible : Bool
  title : String
  distance : Option α
  period : Option α
  radius : Option α
  left : α
  top : α

/-- What `getBoundingClientRect()` of the tooltip and `window.innerWidth`,
`window.innerHeight` return while a handler runs. -/
structure Layout (α : Type) where
  tooltipWidth : α
  tooltipHeight : α
  windowWidth : α
  windowHeight : α

/-- The parts of the HTML page the class reads at construction: the tooltip
panel and, per planet name, the slider `<name>-speed` and the text
`<name>-value`. -/
structure Page (α : Type) where
  tooltip : Tooltip α
  sliderValue : String → α
  valueDisplay : String → String

/-- The fields of a `SolarSystem` instance the modelled methods read or write.
`hoveredPlanet` holds the `userData.name` of the referenced mesh: the names of
the meshes in `planetMeshes` are pairwise distinct, so it identifies the
object. -/
structure State (α : Type) where
  sunRotationY : α
  planets : List (OrbitGroup α)
  speedMultipliers : String → Option α
  isPaused : Bool
  hoveredPlanet : Option String
  tooltip : Tooltip α
  cameraPosition : Vector3 α
  controlsTarget : Vector3 α
  sliderValue : String → α
  valueDisplay : String → String

/-- The closure of one `animateCamera` call (lines 584-587). -/
structure CameraAnimation (α : Type) where
  startPosition : Vector3 α
  startLookAt : Vector3 α
  targetPosition : Vector3 α
  lookAtPosition : Vector3 α
  startTime : Int

/-- `OrbitControls.update()`: camera position and target before, and after. -/
abbrev ControlsUpdate (α : Type) := Vector3 α × Vector3 α → Vector3 α × Vector3 α

section Code

variable {α : Type} [LinearOrderedField α]

/-! ## Vectors -/

/-- `Vector3.add`. -/
def Vector3.add (a b : Vector3 α) : Vector3 α :=
  ⟨a.x + b.x, a.y + b.y, a.z + b.z⟩

/-- `Vector3.lerpVectors(v1, v2, alpha)`. -/
def Vector3.lerpVectors (v1 v2 : Vector3 α) (alpha : α) : Vector3 α :=
  ⟨v1.x + (v2.x - v1.x) * alpha, v1.y + (v2.y - v1.y) * alpha, v1.z + (v2.z - v1.z) * alpha⟩

/-! ## Scene construction -/

/-- The catalog `this.planetData` (lines 113-202). -/
def planetData : List (PlanetData α) :=
  [ ⟨"mercury", 0.8, 15, 0.047, 0x8c7853, 0.01, 0.39, 88, 2439⟩,
    ⟨"venus", 1.2, 22, 0.035, 0xffc649, 0.008, 0.72, 225, 6052⟩,
    ⟨"earth", 1.3, 30, 0.03, 0x6b93d6, 0.02, 1.0, 365, 6371⟩,
    ⟨"mars", 1.0, 40, 0.024, 0xc1440e, 0.018, 1.52, 687, 3390⟩,
    ⟨"jupiter", 4.0, 65, 0.013, 0xd8ca9d, 0.04, 5.2, 4333, 69911⟩,
    ⟨"saturn", 3.5, 85, 0.009, 0xfad5a5, 0.038, 9.5, 10759, 58232⟩,
    ⟨"uranus", 2.5, 105, 0.005, 0x4fd0e7, 0.03, 19.2, 30687, 25362⟩,
    ⟨"neptune", 2.4, 125, 0.005, 0x4b70dd, 0.032, 30.1, 60190, 24622⟩ ]

/-- `data.name.charAt(0).toUpperCase() + data.name.slice(1)`. -/
def displayNameOf (name : String) : String :=
  name.capitalize

/-- The moon mesh built by `addEarthMoon` (lines 330-351). -/
def addEarthMoon : MoonMesh α :=
  { name := "moon", orbitSpeed := 0.1, angle := 0, displayName := "Moon",
    realRadius := 1737, realDistance := 0.00257,
    position := ⟨3, 0, 0⟩, rotationY := 0 }

/-- The orbit group built by `createPlanet(data, index)` (lines 249-300);
`randomAngle` is the value of `Math.random() * Math.PI * 2` at line 273. -/
def createPlanet (data : PlanetData α) (randomAngle : α) : OrbitGroup α :=
  { planet :=
      { name := data.name, orbitSpeed := data.speed, rotationSpeed := data.rotationSpeed,
        distance := data.distance, angle := randomAngle,
        realDistance := data.realDistance, realPeriod := data.realPeriod,
        realRadius := data.realRadius, displayName := displayNameOf data.name,
        position := ⟨data.distance, 0, 0⟩, rotationY := 0 },
    name := data.name,
    moon := if data.name = "earth" then some addEarthMoon else none }

/-- The loop of lines 208-210 over a catalog; `randomAngle i` is the random
start angle drawn for the planet of index `i`. -/
def createPlanets (randomAngle : Nat → α) : Nat → List (PlanetData α) → List (OrbitGroup α)
  | _, [] => []
  | i, data :: rest => createPlanet data (randomAngle i) :: createPlanets randomAngle (i + 1) rest

/-- The assignment `obj[key] = value` on a table indexed by names. -/
def setKey {β : Type} (table : String → β) (key : String) (value : β) : String → β :=
  fun name => if name = key then value else table name

/-- The loop of lines 213-215 on the empty object of line 20: every catalog
name gets the multiplier `1.0`; any other name stays `undefined`. -/
def initialSpeedMultipliers : String → Option α :=
  (planetData (α := α)).foldl (fun table planet => setKey table planet.name (some 1.0))
    (fun _ => none)

/-- The state when the constructor (lines 3-32) has run `init`,
`setupControls` and `setupEventListeners`, before the first call of `animate`:
camera at `(0, 50, 100)`, controls target at the origin, not paused, nothing
hovered. -/
def construct (page : Page α) (randomAngle : Nat → α) : State α :=
  { sunRotationY := 0,
    planets := createPlanets randomAngle 0 planetData,
    speedMultipliers := initialSpeedMultipliers,
    isPaused := false,
    hoveredPlanet := none,
    tooltip := page.tooltip,
    cameraPosition := ⟨0, 50, 100⟩,
    controlsTarget := ⟨0, 0, 0⟩,
    sliderValue := page.sliderValue,
    valueDisplay := page.valueDisplay }

/-! ## Kinematics: `animate` -/

/-- `this.speedMultipliers[planetName] || 1.0` (line 637): the right operand is
taken when the left one is falsy, that is `undefined` or `0`. -/
def speedMultiplierOr (stored : Option α) : α :=
  match stored with
  | none => 1.0
  | some m => if m = 0 then 1.0 else m

/-- The moon branch of the loop body (lines 653-665). -/
def updateMoon (cos sin : α → α) (speedMultiplier deltaTime : α) (moon : MoonMesh α) :
    MoonMesh α :=
  let angle := moon.angle + moon.orbitSpeed * speedMultiplier * deltaTime
  { moon with
    angle := angle,
    position := ⟨cos angle * 3, moon.position.y, sin angle * 3⟩,
    rotationY := moon.rotationY + 0.01 * deltaTime }

/-- The body of `this.planets.forEach` in `animate` (lines 634-666). -/
def updateOrbitGroup (cos sin : α → α) (speedMultipliers : String → Option α) (deltaTime : α)
    (orbitGroup : OrbitGroup α) : OrbitGroup α :=
  let planet := orbitGroup.planet
  let planetName := orbitGroup.name
  let speedMultiplier := speedMultiplierOr (speedMultipliers planetName)
  let angle := planet.angle + planet.orbitSpeed * speedMultiplier * deltaTime
  let planet1 : PlanetMesh α :=
    { planet with
      angle := angle,
      position := ⟨cos angle * planet.distance, planet.position.y, sin angle * planet.distance⟩,
      rotationY := planet.rotationY + planet.rotationSpeed * deltaTime }
  { orbitGroup with
    planet := planet1,
    moon :=
      if planetName = "earth" then
        orbitGroup.moon.map (updateMoon cos sin speedMultiplier deltaTime)
      else orbitGroup.moon }

/-- One call of `animate()` (lines 622-674), rendering apart. `deltaTime` is
what `this.clock.getDelta()` returns when it is called, which is on unpaused
frames only. -/
def animate (cos sin : α → α) (controlsUpdate : ControlsUpdate α) (deltaTime : α)
    (s : State α) : State α :=
  let s1 : State α :=
    if !s.isPaused then
      { s with
        sunRotationY := s.sunRotationY + 0.005,
        planets := s.planets.map (updateOrbitGroup cos sin s.speedMultipliers deltaTime) }
    else s
  let view := controlsUpdate (s1.cameraPosition, s1.controlsTarget)
  { s1 with cameraPosition := view.1, controlsTarget := view.2 }

/-! ## Speed controls, pause -/

/-- The slider `input` handler of planet `name` (lines 388-392). The event is
fired after the slider took the value the user chose; `speed` is
`parseFloat(e.target.value)` and `toFixed speed` is `speed.toFixed(1)`. -/
def sliderInput (toFixed : α → String) (name : String) (speed : α) (s : State α) : State α :=
  { s with
    sliderValue := setKey s.sliderValue name speed,
    speedMultipliers := setKey s.speedMultipliers name (some speed),
    valueDisplay := setKey s.valueDisplay name ("Speed: " ++ toFixed speed ++ "x") }

/-- The body of the loop of `resetAllSpeeds` for one catalog entry (lines 613-618). -/
def resetSpeed (s : State α) (planet : PlanetData α) : State α :=
  { s with
    sliderValue := setKey s.sliderValue planet.name 1.0,
    speedMultipliers := setKey s.speedMultipliers planet.name (some 1.0),
    valueDisplay := setKey s.valueDisplay planet.name "Speed: 1.0x" }

/-- `resetAllSpeeds()` (lines 611-620). -/
def resetAllSpeeds (s : State α) : State α :=
  planetData.foldl resetSpeed s

/-- The pause/resume `click` handler (lines 405-416), button texts apart. -/
def pauseClick (s : State α) : State α :=
  { s with isPaused := !s.isPaused }

/-! ## Picking and tooltip -/

/-- `userData.name` of a pickable mesh. -/
def Mesh.name : Mesh α → String
  | .sun => "sun"
  | .planet p => p.name
  | .moon m => m.name

/-- `userData.displayName`, absent for the sun. -/
def Mesh.displayName : Mesh α → Option String
  | .sun => none
  | .planet p => some p.displayName
  | .moon m => some m.displayName

/-- `userData.realDistance`, absent for the sun. -/
def Mesh.realDistance : Mesh α → Option α
  | .sun => none
  | .planet p => some p.realDistance
  | .moon m => some m.realDistance

/-- `userData.realPeriod`, absent for the sun and the moon. -/
def Mesh.realPeriod : Mesh α → Option α
  | .sun => none
  | .planet p => some p.realPeriod
  | .moon _ => none

/-- `userData.realRadius`; the sun has 695700 (line 230). -/
def Mesh.realRadius : Mesh α → Option α
  | .sun => some 695700
  | .planet p => some p.realRadius
  | .moon m => some m.realRadius

/-- `getWorldPosition` of a pickable mesh. The sun sits at the origin; every
orbit group and the moon orbit keep the identity transform, so the world
position of a planet or of the moon is its own `position`. -/
def Mesh.getWorldPosition : Mesh α → Vector3 α
  | .sun => ⟨0, 0, 0⟩
  | .planet p => p.position
  | .moon m => m.position

/-- A number field of the tooltip, `value || 'N/A'`: `none` stands for `N/A`,
shown when the value is absent or `0`. -/
def orNA (value : Option α) : Option α :=
  match value with
  | none => none
  | some v => if v = 0 then none else some v

/-- `updateTooltipPosition(x, y)` (lines 530-551). -/
def updateTooltipPosition (layout : Layout α) (x y : α) (tooltip : Tooltip α) : Tooltip α :=
  let left := x + 15
  let top := y - layout.tooltipHeight / 2
  let left := if left + layout.tooltipWidth > layout.windowWidth then
    x - layout.tooltipWidth - 15 else left
  let top := if top < 0 then 10 else top
  let top := if top + layout.tooltipHeight > layout.windowHeight then
    layout.windowHeight - layout.tooltipHeight - 10 else top
  { tooltip with left := left, top := top }

/-- `showTooltip(planet, x, y)` (lines 515-528). -/
def showTooltip (layout : Layout α) (planet : Mesh α) (x y : α) (tooltip : Tooltip α) :
    Tooltip α :=
  let title :=
    match planet.displayName with
    | some d => if d = "" then planet.name else d
    | none => planet.name
  updateTooltipPosition layout x y
    { tooltip with
      title := title,
      distance := orNA planet.realDistance,
      period := orNA planet.realPeriod,
      radius := orNA planet.realRadius,
      visible := true }

/-- `hideTooltip()` (lines 553-555). -/
def hideTooltip (tooltip : Tooltip α) : Tooltip α :=
  { tooltip with visible := false }

/-- `onMouseMove(event)` (lines 469-494). `intersects` is the result of
`raycaster.intersectObjects(this.planetMeshes)`, nearest hit first. -/
def onMouseMove (layout : Layout α) (clientX clientY : α) (intersects : List (Mesh α))
    (s : State α) : State α :=
  match intersects with
  | hit :: _ =>
    let planet := hit
    let s1 : State α :=
      if some planet.name ≠ s.hoveredPlanet then
        { s with
          hoveredPlanet := some planet.name,
          tooltip := showTooltip layout planet clientX clientY s.tooltip }
      else s
    { s1 with tooltip := updateTooltipPosition layout clientX clientY s1.tooltip }
  | [] =>
    if s.hoveredPlanet.isSome then
      { s with hoveredPlanet := none, tooltip := hideTooltip s.tooltip }
    else s

/-- The `mouseleave` handler (lines 464-466). -/
def onMouseLeave (s : State α) : State α :=
  { s with tooltip := hideTooltip s.tooltip }

/-! ## Camera focus -/

/-- One run of `animateStep` (lines 589-606); `now` is the reading of
`Date.now()`. The flag tells whether `requestAnimationFrame(animateStep)` was
called. -/
def animateStep (controlsUpdate : ControlsUpdate α) (a : CameraAnimation α) (now : Int)
    (s : State α) : State α × Bool :=
  let duration : α := 2000
  let elapsed : α := ((now - a.startTime : Int) : α)
  let progress := min (elapsed / duration) 1
  let easeProgress := 1 - (1 - progress) ^ 3
  let position := Vector3.lerpVectors a.startPosition a.targetPosition easeProgress
  let target := Vector3.lerpVectors a.startLookAt a.lookAtPosition easeProgress
  let view := controlsUpdate (position, target)
  ({ s with cameraPosition := view.1, controlsTarget := view.2 }, decide (progress < 1))

/-- `animateCamera(targetPosition, lookAtPosition)` (lines 583-609):
`startTime` is the reading of `Date.now()` at line 587 and `now` the reading
inside the first step, which runs at once (line 608). Returns the state after
that step, the closure, and whether a further step was requested. -/
def animateCamera (controlsUpdate : ControlsUpdate α) (targetPosition lookAtPosition : Vector3 α)
    (startTime now : Int) (s : State α) : State α × CameraAnimation α × Bool :=
  let a : CameraAnimation α :=
    { startPosition := s.cameraPosition, startLookAt := s.controlsTarget,
      targetPosition := targetPosition, lookAtPosition := lookAtPosition,
      startTime := startTime }
  let r := animateStep controlsUpdate a now s
  (r.1, a, r.2)

/-- Lines 558-570 of `focusOnPlanet`: the values of `targetObject` and
`distance` when line 572 is reached. -/
def focusTarget (planetName : String) (s : State α) : Option (Mesh α) × α :=
  if planetName = "sun" then (some Mesh.sun, 30)
  else
    match s.planets.find? (fun p => p.name == planetName) with
    | some planetGroup => (some (Mesh.planet planetGroup.planet), planetGroup.planet.distance + 10)
    | none => (none, 50)

/-- `focusOnPlanet(planetName)` (lines 557-581). The second component is
`none` when `animateCamera` is not called. -/
def focusOnPlanet (controlsUpdate : ControlsUpdate α) (planetName : String)
    (startTime now : Int) (s : State α) : State α × Option (CameraAnimation α × Bool) :=
  match focusTarget planetName s with
  | (some targetObject, distance) =>
    let targetPosition := targetObject.getWorldPosition
    let cameraOffset : Vector3 α := ⟨distance, distance * 0.5, distance⟩
    let newCameraPosition := targetPosition.add cameraOffset
    let r := animateCamera controlsUpdate newCameraPosition targetPosition startTime now s
    (r.1, some r.2)
  | (none, _) => (s, none)

/-- `onMouseClick(event)` (lines 496-513). -/
def onMouseClick (controlsUpdate : ControlsUpdate α) (intersects : List (Mesh α))
    (startTime now : Int) (s : State α) : State α × Option (CameraAnimation α × Bool) :=
  match intersects with
  | hit :: _ => focusOnPlanet controlsUpdate hit.name startTime now s
  | [] => (s, none)

/-! ## Reachable states -/

/-- The names of the catalog planets, in catalog order. -/
def planetNames : List String :=
  (planetData (α := ℚ)).map PlanetData.name

/-- The states the page can be in: the constructed one, and what the modelled
handlers and callbacks make of a reachable state. -/
inductive Reachable (cos sin : α → α) (controlsUpdate : ControlsUpdate α)
    (toFixed : α → String) : State α → Prop where
  | construct (page : Page α) (randomAngle : Nat → α) :
      Reachable cos sin controlsUpdate toFixed (construct page randomAngle)
  | animate (deltaTime : α) {s : State α} :
      Reachable cos sin controlsUpdate toFixed s →
      Reachable cos sin controlsUpdate toFixed (animate cos sin controlsUpdate deltaTime s)
  | pauseClick {s : State α} :
      Reachable cos sin controlsUpdate toFixed s →
      Reachable cos sin controlsUpdate toFixed (pauseClick s)
  | sliderInput (name : String) (speed : α) {s : State α} :
      name ∈ planetNames →
      Reachable cos sin controlsUpdate toFixed s →
      Reachable cos sin controlsUpdate toFixed (sliderInput toFixed name speed s)
  | resetAllSpeeds {s : State α} :
      Reachable cos sin controlsUpdate toFixed s →
      Reachable cos sin controlsUpdate toFixed (resetAllSpeeds s)
  | onMouseMove (layout : Layout α) (clientX clientY : α) (intersects : List (Mesh α))
      {s : State α} :
      Reachable cos sin controlsUpdate toFixed s →
      Reachable cos sin controlsUpdate toFixed (onMouseMove layout clientX clientY intersects s)
  | onMouseLeave {s : State α} :
      Reachable cos sin controlsUpdate toFixed s →
      Reachable cos sin controlsUpdate toFixed (onMouseLeave s)
  | focusOnPlanet (planetName : String) (startTime now : Int) {s : State α} :
      Reachable cos sin controlsUpdate toFixed s →
      Reachable cos sin controlsUpdate toFixed
        (focusOnPlanet controlsUpdate planetName startTime now s).1
  | animateStep (a : CameraAnimation α) (now : Int) {s : State α} :
      Reachable cos sin controlsUpdate toFixed s →
      Reachable cos sin controlsUpdate toFixed (animateStep controlsUpdate a now s).1

/-! ## Observations and sample inputs -/

/-- The orbit group of a planet name, as `this.planets.find` returns it. -/
def findGroup (name : String) (s : State α) : Option (OrbitGroup α) :=
  s.planets.find? (fun p => p.name == name)

/-- The orbital angle of the planet of that name. -/
def planetAngle (name : String) (s : State α) : Option α :=
  (findGroup name s).map (fun g => g.planet.angle)

/-- The orbital angle of the moon. -/
def moonAngle (s : State α) : Option α :=
  (findGroup "earth" s).bind (fun g => g.moon.map (fun m => m.angle))

/-- The distance of a local position from the vertical axis of its parent,
`sqrt(x² + z²)`, for a given square root. -/
def orbitRadius (sqrt : α → α) (position : Vector3 α) : α :=
  sqrt (position.x ^ 2 + position.z ^ 2)

/-- A sequence of frames: `animate` once per element, in order. -/
def animateFrames (cos sin : α → α) (controlsUpdate : ControlsUpdate α) (deltaTimes : List α)
    (s : State α) : State α :=
  deltaTimes.foldl (fun state deltaTime => animate cos sin controlsUpdate deltaTime state) s

/-- A sample page: hidden empty tooltip, every slider at `1`. -/
def samplePage : Page α :=
  { tooltip := ⟨false, "", none, none, none, 0, 0⟩,
    sliderValue := fun _ => 1,
    valueDisplay := fun _ => "Speed: 1.0x" }

/-- A sample `OrbitControls.update` with no pending user input, for views
whose camera is between `minDistance = 20` and `maxDistance = 500` from the
target (lines 64-65): the view stays. Outside that range the library moves
the camera onto the nearer limit, which this sample does not do; it is used
on views within the range only. -/
def idleControls : ControlsUpdate α :=
  fun view => view

/-- The squared distance between two points. -/
def distanceSq (p q : Vector3 α) : α :=
  (p.x - q.x) ^ 2 + (p.y - q.y) ^ 2 + (p.z - q.z) ^ 2

/-- The camera of a view is between `minDistance = 20` and
`maxDistance = 500` from the target (lines 64-65). -/
def WithinControlsRange (view : Vector3 α × Vector3 α) : Prop :=
  20 ^ 2 ≤ distanceSq view.1 view.2 ∧ distanceSq view.1 view.2 ≤ 500 ^ 2

/-- A sample constructed state: sample page, every start angle `0`. -/
def sampleState : State α :=
  construct samplePage (fun _ => 0)

/-- What an orbit group keeps from its catalog entry: the group name and the
orbital distance of the planet. -/
def MatchesCatalog (g : OrbitGroup α) (d : PlanetData α) : Prop :=
  g.name = d.name ∧ g.planet.distance = d.distance

end Code

/-- The orbit radius relation between an orbit group and its catalog entry:
the planet is at the catalog distance from the axis of its group, and the
moon, which the earth group alone has, is at distance 3. -/
def OnOrbit (g : OrbitGroup ℝ) (d : PlanetData ℝ) : Prop :=
  g.name = d.name ∧ g.planet.distance = d.distance ∧ 0 ≤ d.distance ∧
  orbitRadius Real.sqrt g.planet.position = d.distance ∧
  g.moon.map (fun m => orbitRadius Real.sqrt m.position) =
    if d.name = "earth" then some 3 else none

/-! ## Theme -/

/-- A child of `this.scene`, as far as the theme code tells them apart: an
ambient light (color, intensity), a point light (color, intensity, distance),
a star field (`THREE.Points`, with its star count, color and size; the random
star positions are left out), another mesh, or an orbit group. -/
inductive SceneObject (α : Type) where
  | ambientLight : Nat → α → SceneObject α
  | pointLight : Nat → α → α → SceneObject α
  | points : Nat → Nat → Nat → SceneObject α
  | mesh : String → SceneObject α
  | group : String → SceneObject α

/-- The fields the theme code reads or writes: `this.isLightMode`,
`this.scene.background` (`none` for `null`) and `this.scene.children`. -/
structure ThemeState (α : Type) where
  isLightMode : Bool
  background : Option Nat
  children : List (SceneObject α)

section ThemeCode

variable {α : Type} [LinearOrderedField α]

/-- The flag `child.isLight`. -/
def SceneObject.isLight : SceneObject α → Bool
  | .ambientLight _ _ => true
  | .pointLight _ _ _ => true
  | _ => false

/-- The flag `child.isPoints`. -/
def SceneObject.isPoints : SceneObject α → Bool
  | .points _ _ _ => true
  | _ => false

/-- `updateSceneBackground()` (lines 83-89). -/
def updateSceneBackground (t : ThemeState α) : ThemeState α :=
  if t.isLightMode then { t with background := some 0x87ceeb }
  else { t with background := some 0x000011 }

/-- `setupLighting()` (lines 91-109): every child with `isLight` is removed,
then the ambient light and the sun's point light are added. -/
def setupLighting (t : ThemeState α) : ThemeState α :=
  let remaining := t.children.filter (fun child => !child.isLight)
  let ambientIntensity : α := if t.isLightMode then 0.3 else 0.1
  let ambientLight : SceneObject α := .ambientLight 0x404040 ambientIntensity
  let sunLightIntensity : α := if t.isLightMode then 1.5 else 2
  let sunLight : SceneObject α := .pointLight 0xffffff sunLightIntensity 1000
  { t with children := (remaining ++ [ambientLight]) ++ [sunLight] }

/-- `createStarField()` (lines 353-380): the first child with `isPoints`, if
there is one, is removed, and the new star field is added. -/
def createStarField (t : ThemeState α) : ThemeState α :=
  let starCount : Nat := if t.isLightMode then 5000 else 15000
  let stars : SceneObject α :=
    .points starCount (if t.isLightMode then 0x666666 else 0xffffff)
      (if t.isLightMode then 1 else 2)
  let existingStars := t.children.find? SceneObject.isPoints
  let children :=
    match existingStars with
    | some _ => t.children.eraseP SceneObject.isPoints
    | none => t.children
  { t with children := children ++ [stars] }

/-- The children `createSolarSystem()` adds to the scene: the sun, then per
catalog planet its orbit group and its orbit ring (lines 233, 285, 313). -/
def solarSystemChildren : List (SceneObject α) :=
  planetNames.foldl
    (fun children name => children ++ [SceneObject.group name, SceneObject.mesh "orbit"])
    [SceneObject.mesh "sun"]

/-- The theme state `init()` leaves (lines 34-81): dark mode, background set,
lights, solar system and star field added in that order. -/
def initTheme : ThemeState α :=
  let t0 : ThemeState α := { isLightMode := false, background := none, children := [] }
  let t1 := setupLighting (updateSceneBackground t0)
  createStarField { t1 with children := t1.children ++ solarSystemChildren }

/-- The theme toggle `click` handler (lines 423-439), button texts apart. -/
def themeClick (t : ThemeState α) : ThemeState α :=
  createStarField (setupLighting (updateSceneBackground { t with isLightMode := !t.isLightMode }))

/-- The theme states theme toggles reach from the constructed scene. -/
inductive ThemeReachable : ThemeState α → Prop where
  | init : ThemeReachable initTheme
  | themeClick {t : ThemeState α} : ThemeReachable t → ThemeReachable (themeClick t)

/-- The lights of the scene, in scene order. -/
def sceneLights (t : ThemeState α) : List (SceneObject α) :=
  t.children.filter SceneObject.isLight

/-- The star fields of the scene, in scene order. -/
def sceneStars (t : ThemeState α) : List (SceneObject α) :=
  t.children.filter SceneObject.isPoints

/-- The intensities of the ambient lights of the scene. -/
def ambientIntensities (t : ThemeState α) : List α :=
  t.children.filterMap (fun child =>
    match child with
    | .ambientLight _ intensity => some intensity
    | _ => none)

/-- The star counts of the star fields of the scene. -/
def starCounts (t : ThemeState α) : List Nat :=
  t.children.filterMap (fun child =>
    match child with
    | .points starCount _ _ => some starCount
    | _ => none)

/-- The lighting rig and star field `setupLighting` and `createStarField`
build for a theme. -/
def themeLights (isLightMode : Bool) : List (SceneObject α) :=
  [ .ambientLight 0x404040 (if isLightMode then 0.3 else 0.1),
    .pointLight 0xffffff (if isLightMode then 1.5 else 2) 1000 ]

/-- The star field `createStarField` builds for a theme. -/
def themeStars (isLightMode : Bool) : List (SceneObject α) :=
  [ .points (if isLightMode then 5000 else 15000) (if isLightMode then 0x666666 else 0xffffff)
      (if isLightMode then 1 else 2) ]

/-- The scene agrees with its theme flag: background, lights and stars are
those built for `isLightMode`. -/
def ThemeConsistent (t : ThemeState α) : Prop :=
  t.background = some (if t.isLightMode then 0x87ceeb else 0x000011) ∧
  sceneLights t = themeLights t.isLightMode ∧
  sceneStars t = themeStars t.isLightMode

end ThemeCode

/-! ## Camera animation: progress, easing, scheduling -/

section AnimationCode

variable {α : Type} [LinearOrderedField α]

/-- The value of `progress` in a run of `animateStep` (lines 590-591). -/
def stepProgress (a : CameraAnimation α) (now : Int) : α :=
  min (((now - a.startTime : Int) : α) / 2000) 1

/-- The value of `easeProgress` in a run of `animateStep` (line 594). -/
def stepEase (a : CameraAnimation α) (now : Int) : α :=
  1 - (1 - stepProgress a now) ^ 3

/-- The view a run of `animateStep` hands to `controls.update()`: the
interpolated camera position and look-at target (lines 597, 600). -/
def stepView (a : CameraAnimation α) (now : Int) : Vector3 α × Vector3 α :=
  (Vector3.lerpVectors a.startPosition a.targetPosition (stepEase a now),
    Vector3.lerpVectors a.startLookAt a.lookAtPosition (stepEase a now))

/-- The `clamp(x, lo, hi)` of the specification. -/
def clamp (x lo hi : α) : α :=
  max lo (min x hi)

/-- A point of the segment between `start` and `dest`. -/
def OnSegment (p start dest : Vector3 α) : Prop :=
  ∃ w : α, 0 ≤ w ∧ w ≤ 1 ∧ p = Vector3.lerpVectors start dest w

/-- The chain of steps of one `animateCamera` call: step `k` reads
`clock k`; a step that calls `requestAnimationFrame` is followed by the next
one. At most `fuel` steps are run. Returns the state after the last step run,
the number of steps run, and whether a further step is still requested. -/
def runAnimation (controlsUpdate : ControlsUpdate α) (a : CameraAnimation α)
    (clock : Nat → Int) : Nat → Nat → State α → State α × Nat × Bool
  | 0, _, s => (s, 0, true)
  | fuel + 1, k, s =>
    let r := animateStep controlsUpdate a (clock k) s
    if r.2 then
      let rest := runAnimation controlsUpdate a clock fuel (k + 1) r.1
      (rest.1, rest.2.1 + 1, rest.2.2)
    else (r.1, 1, false)

/-- A sample animation: the one `focusOnPlanet('sun')` starts on the sample
state when `Date.now()` reads 2000. -/
def sampleAnimation : CameraAnimation α :=
  { startPosition := ⟨0, 50, 100⟩, startLookAt := ⟨0, 0, 0⟩,
    targetPosition := ⟨30, 15, 30⟩, lookAtPosition := ⟨0, 0, 0⟩, startTime := 2000 }

end AnimationCode

/-! ## Frames on a clock -/

/-- The instance together with `this.clock`: `oldTime` is `none` until the
clock is started by the first `getDelta()` call, then the time of the last
call, in seconds. -/
structure Timed (α : Type) where
  state : State α
  oldTime : Option α

/-- What happens between the construction and a moment of interest when no
slider is touched: a frame callback at a time (in seconds), or a click on the
pause/resume button. -/
inductive FrameEvent (α : Type) where
  | frame : α → FrameEvent α
  | pauseClick : FrameEvent α

section ClockCode

variable {α : Type} [LinearOrderedField α]

/-- `Clock.getDelta()` of the scene library at time `now`: the time since the
previous call, and `0` at the first call, which starts the clock. Returns the
delta and the new `oldTime`. -/
def getDelta (now : α) (oldTime : Option α) : α × Option α :=
  match oldTime with
  | none => (0, some now)
  | some old => (now - old, some now)

/-- One call of `animate()` at time `now` (lines 622-674): `getDelta()` is
called on unpaused frames only (line 626). On a paused frame `animate` does
not use its `deltaTime` argument. -/
def animateAt (cos sin : α → α) (controlsUpdate : ControlsUpdate α) (now : α) (t : Timed α) :
    Timed α :=
  if t.state.isPaused then
    { t with state := animate cos sin controlsUpdate 0 t.state }
  else
    let delta := getDelta now t.oldTime
    { state := animate cos sin controlsUpdate delta.1 t.state, oldTime := delta.2 }

/-- The effect of one event. -/
def FrameEvent.run (cos sin : α → α) (controlsUpdate : ControlsUpdate α) (t : Timed α) :
    FrameEvent α → Timed α
  | .frame now => animateAt cos sin controlsUpdate now t
  | .pauseClick => { t with state := SolarSystem.pauseClick t.state }

/-- The effect of a sequence of events, in order. -/
def runEvents (cos sin : α → α) (controlsUpdate : ControlsUpdate α) (events : List (FrameEvent α))
    (t : Timed α) : Timed α :=
  events.foldl (FrameEvent.run cos sin controlsUpdate) t

/-- The time of the first unpaused frame of a sequence of events that starts
with the given pause flag. -/
def firstUnpausedTime : Bool → List (FrameEvent α) → Option α
  | _, [] => none
  | paused, .pauseClick :: rest => firstUnpausedTime (!paused) rest
  | paused, .frame now :: rest => if paused then firstUnpausedTime paused rest else some now

/-- The first of two optional times that is present. -/
def firstOr (first later : Option α) : Option α :=
  match first with
  | some f => some f
  | none => later

/-- The time from the first unpaused frame to the last `getDelta()` call; `0`
while there was none. -/
def elapsedSince (first oldTime : Option α) : α :=
  match first, oldTime with
  | some f, some o => o - f
  | _, _ => 0

/-- The angle of the planet of group `g` is that of `g0` advanced by
`orbitSpeed * multiplier * elapsed`, the multiplier being the one line 637
computes for the group. -/
def AngleAfter (speedMultipliers : String → Option α) (elapsed : α) (g g0 : OrbitGroup α) :
    Prop :=
  g.name = g0.name ∧ g.planet.orbitSpeed = g0.planet.orbitSpeed ∧
  g.planet.angle = g0.planet.angle +
    g0.planet.orbitSpeed * speedMultiplierOr (speedMultipliers g0.name) * elapsed

/-- The state of the orbits on the clock: multipliers as at the start, the
clock started exactly when an unpaused frame has run, and every planet
advanced by the time from the first unpaused frame to the last clock call. -/
def ClockInvariant (s0 : State α) (first : Option α) (t : Timed α) : Prop :=
  t.state.speedMultipliers = s0.speedMultipliers ∧
  first.isSome = t.oldTime.isSome ∧
  List.Forall₂ (AngleAfter s0.speedMultipliers (elapsedSince first t.oldTime))
    t.state.planets s0.planets

end ClockCode

/-! ## Focus: world position of the target, samples -/

section FocusSamples

variable {α : Type} [LinearOrderedField α]

/-- The world position, in state `s`, of the body `focusOnPlanet(planetName)`
resolves; `none` when it resolves none. -/
def focusWorldPosition (planetName : String) (s : State α) : Option (Vector3 α) :=
  (focusTarget planetName s).1.map Mesh.getWorldPosition

/-- The earth mesh of the sample state. -/
def sampleEarth : PlanetMesh α :=
  (createPlanet ⟨"earth", 1.3, 30, 0.03, 0x6b93d6, 0.02, 1.0, 365, 6371⟩ 0).planet

/-- A sample animation: the one `focusOnPlanet('earth')` starts on the sample
state when `Date.now()` reads 0. The earth is then at `(30, 0, 0)`. -/
def earthFocusAnimation : CameraAnimation α :=
  { startPosition := ⟨0, 50, 100⟩, startLookAt := ⟨0, 0, 0⟩,
    targetPosition := ⟨70, 20, 40⟩, lookAtPosition := ⟨30, 0, 0⟩, startTime := 0 }

end FocusSamples

/-! ## Theorems -/

section Kinematics

variable {α : Type} [LinearOrderedField α]

theorem speedMultiplierOr_of_ne_zero {m : α} (hm : m ≠ 0) :
    speedMultiplierOr (some m) = m := by
  simp [speedMultiplierOr, hm]

theorem speedMultiplierOr_zero : speedMultiplierOr (some (0 : α)) = 1 := by
  simp [speedMultiplierOr]
  norm_num

theorem animate_planets (cos sin : α → α) (controlsUpdate : ControlsUpdate α) (deltaTime : α)
    (s : State α) :
    (animate cos sin controlsUpdate deltaTime s).planets =
      if s.isPaused then s.planets
      else s.planets.map (updateOrbitGroup cos sin s.speedMultipliers deltaTime) := by
  unfold animate
  cases h : s.isPaused <;> simp

theorem animate_isPaused (cos sin : α → α) (controlsUpdate : ControlsUpdate α) (deltaTime : α)
    (s : State α) :
    (animate cos sin controlsUpdate deltaTime s).isPaused = s.isPaused := by
  unfold animate
  cases h : s.isPaused <;> simp [h]

theorem animate_sunRotationY_paused (cos sin : α → α) (controlsUpdate : ControlsUpdate α)
    (deltaTime : α) (s : State α) (h : s.isPaused = true) :
    (animate cos sin controlsUpdate deltaTime s).sunRotationY = s.sunRotationY := by
  unfold animate
  simp [h]

/-- The angle update of an unpaused frame for a planet whose stored
multiplier is a non-zero `m`: `angle + orbitSpeed * m * deltaTime`. -/
theorem updateOrbitGroup_angle (cos sin : α → α) (speedMultipliers : String → Option α)
    (deltaTime m : α) (g : OrbitGroup α) (hm : speedMultipliers g.name = some m) (h0 : m ≠ 0) :
    (updateOrbitGroup cos sin speedMultipliers deltaTime g).planet.angle =
      g.planet.angle + g.planet.orbitSpeed * m * deltaTime := by
  simp [updateOrbitGroup, hm, speedMultiplierOr_of_ne_zero h0]

/-- The angle update of an unpaused frame for the moon when the multiplier
stored for the earth is a non-zero `m`. -/
theorem updateOrbitGroup_moon_angle (cos sin : α → α) (speedMultipliers : String → Option α)
    (deltaTime m : α) (g : OrbitGroup α) (moon : MoonMesh α) (hname : g.name = "earth")
    (hmoon : g.moon = some moon) (hm : speedMultipliers "earth" = some m) (h0 : m ≠ 0) :
    (updateOrbitGroup cos sin speedMultipliers deltaTime g).moon.map (fun x => x.angle) =
      some (moon.angle + moon.orbitSpeed * m * deltaTime) := by
  simp [updateOrbitGroup, hname, hmoon, hm, speedMultiplierOr_of_ne_zero h0, updateMoon]

/-- C1, at the failing input. The earth slider is moved to `0` on a freshly
constructed page and one unpaused frame with `deltaTime = 1` runs. The stored
multiplier of the earth is `0`, yet the earth's angle goes from `0` to `0.03`
and the moon's from `0` to `0.1`: the frame used the multiplier `1`, where
`angle + orbitSpeed * 0 * 1` is the angle before. -/
theorem animate_zero_multiplier_advances (cos sin : ℚ → ℚ) (controlsUpdate : ControlsUpdate ℚ)
    (toFixed : ℚ → String) :
    (sliderInput toFixed "earth" 0 sampleState).speedMultipliers "earth" = some 0 ∧
    (sliderInput toFixed "earth" 0 sampleState).isPaused = false ∧
    planetAngle "earth" (sliderInput toFixed "earth" 0 sampleState) = some 0 ∧
    moonAngle (sliderInput toFixed "earth" 0 sampleState) = some 0 ∧
    planetAngle "earth"
      (animate cos sin controlsUpdate 1 (sliderInput toFixed "earth" 0 sampleState)) =
        some (3 / 100) ∧
    moonAngle (animate cos sin controlsUpdate 1 (sliderInput toFixed "earth" 0 sampleState)) =
        some (1 / 10) := by
  refine ⟨?_, ?_, ?_, ?_, ?_, ?_⟩
  · simp [sliderInput, setKey]
  · simp [sliderInput, sampleState, construct]
  · simp [planetAngle, findGroup, sliderInput, sampleState, construct, createPlanets, planetData,
      createPlanet]
  · simp [moonAngle, findGroup, sliderInput, sampleState, construct, createPlanets, planetData,
      createPlanet, addEarthMoon]
  · simp [planetAngle, findGroup, animate, sliderInput, sampleState, construct, createPlanets,
      planetData, createPlanet, updateOrbitGroup, speedMultiplierOr, setKey]
    norm_num
  · simp [moonAngle, findGroup, animate, sliderInput, sampleState, construct, createPlanets,
      planetData, createPlanet, updateOrbitGroup, speedMultiplierOr, setKey, addEarthMoon,
      updateMoon]
    norm_num

/-- C2. Any number of consecutive frames run while `isPaused` is true leave
every orbit group (planet angle, planet position, moon angle, moon position)
and the sun exactly as they were, and the system stays paused. -/
theorem animateFrames_paused_noop (cos sin : α → α) (controlsUpdate : ControlsUpdate α)
    (deltaTimes : List α) (s : State α) (h : s.isPaused = true) :
    (animateFrames cos sin controlsUpdate deltaTimes s).planets = s.planets ∧
    (animateFrames cos sin controlsUpdate deltaTimes s).sunRotationY = s.sunRotationY ∧
    (animateFrames cos sin controlsUpdate deltaTimes s).isPaused = true := by
  induction deltaTimes generalizing s with
  | nil => exact ⟨rfl, rfl, h⟩
  | cons dt rest ih =>
    have hp : (animate cos sin controlsUpdate dt s).isPaused = true := by
      rw [animate_isPaused, h]
    obtain ⟨h1, h2, h3⟩ := ih (animate cos sin controlsUpdate dt s) hp
    refine ⟨?_, ?_, ?_⟩
    · show (animateFrames cos sin controlsUpdate rest _).planets = _
      rw [h1, animate_planets, if_pos h]
    · show (animateFrames cos sin controlsUpdate rest _).sunRotationY = _
      rw [h2, animate_sunRotationY_paused _ _ _ _ _ h]
    · exact h3

theorem animateFrames_paused_noop_witness :
    (pauseClick (sampleState (α := ℚ))).isPaused = true ∧
    (animateFrames id id idleControls [1, 2, 3] (pauseClick (sampleState (α := ℚ)))).planets =
      (pauseClick (sampleState (α := ℚ))).planets :=
  ⟨rfl, (animateFrames_paused_noop id id idleControls [1, 2, 3]
    (pauseClick (sampleState (α := ℚ))) rfl).1⟩

end Kinematics

section Planets

variable {α : Type} [LinearOrderedField α]

theorem resetAllSpeeds_planets (s : State α) : (resetAllSpeeds s).planets = s.planets := by
  unfold resetAllSpeeds
  generalize (planetData (α := α)) = catalog
  induction catalog generalizing s with
  | nil => rfl
  | cons d rest ih => rw [List.foldl_cons, ih]; rfl

theorem onMouseMove_planets (layout : Layout α) (x y : α) (intersects : List (Mesh α))
    (s : State α) : (onMouseMove layout x y intersects s).planets = s.planets := by
  unfold onMouseMove
  split
  · dsimp only
    split <;> rfl
  · split <;> rfl

theorem focusOnPlanet_planets (controlsUpdate : ControlsUpdate α) (planetName : String)
    (startTime now : Int) (s : State α) :
    (focusOnPlanet controlsUpdate planetName startTime now s).1.planets = s.planets := by
  unfold focusOnPlanet
  split <;> rfl

/-- A property of the list of orbit groups that holds after construction and
is kept by the loop of an unpaused frame holds in every reachable state: no
other handler touches the orbit groups. -/
theorem Reachable.planets_induction {cos sin : α → α} {controlsUpdate : ControlsUpdate α}
    {toFixed : α → String} (P : List (OrbitGroup α) → Prop)
    (hconstruct : ∀ randomAngle : Nat → α, P (createPlanets randomAngle 0 planetData))
    (hframe : ∀ (planets : List (OrbitGroup α)) (speedMultipliers : String → Option α)
      (deltaTime : α), P planets →
      P (planets.map (updateOrbitGroup cos sin speedMultipliers deltaTime)))
    {s : State α} (h : Reachable cos sin controlsUpdate toFixed s) : P s.planets := by
  induction h with
  | construct page randomAngle => exact hconstruct randomAngle
  | animate deltaTime _ ih =>
    rw [animate_planets]
    split
    · exact ih
    · exact hframe _ _ _ ih
  | pauseClick _ ih => exact ih
  | sliderInput name speed _ _ ih => exact ih
  | resetAllSpeeds _ ih => rw [resetAllSpeeds_planets]; exact ih
  | onMouseMove layout x y intersects _ ih => rw [onMouseMove_planets]; exact ih
  | onMouseLeave _ ih => exact ih
  | focusOnPlanet planetName startTime now _ ih => rw [focusOnPlanet_planets]; exact ih
  | animateStep a now _ ih => exact ih

theorem createPlanets_matchesCatalog (randomAngle : Nat → α) (i : Nat)
    (catalog : List (PlanetData α)) :
    List.Forall₂ MatchesCatalog (createPlanets randomAngle i catalog) catalog := by
  induction catalog generalizing i with
  | nil => exact List.Forall₂.nil
  | cons d rest ih => exact List.Forall₂.cons ⟨rfl, rfl⟩ (ih (i + 1))

/-- In every reachable state the orbit groups are, in catalog order, those
of the catalog planets, each with its catalog distance. -/
theorem Reachable.matchesCatalog {cos sin : α → α} {controlsUpdate : ControlsUpdate α}
    {toFixed : α → String} {s : State α} (h : Reachable cos sin controlsUpdate toFixed s) :
    List.Forall₂ MatchesCatalog s.planets planetData := by
  refine Reachable.planets_induction (fun planets => List.Forall₂ MatchesCatalog planets planetData)
    (fun randomAngle => createPlanets_matchesCatalog randomAngle 0 planetData) ?_ h
  intro planets speedMultipliers deltaTime hp
  rw [List.forall₂_map_left_iff]
  exact List.Forall₂.imp (fun g d hgd => ⟨hgd.1, hgd.2⟩) hp

end Planets

section Radius

theorem orbitRadius_polar (angle distance : ℝ) (h : 0 ≤ distance) (y : ℝ) :
    orbitRadius Real.sqrt ⟨Real.cos angle * distance, y, Real.sin angle * distance⟩ =
      distance := by
  unfold orbitRadius
  have hsq : (Real.cos angle * distance) ^ 2 + (Real.sin angle * distance) ^ 2 =
      distance ^ 2 := by
    have := Real.cos_sq_add_sin_sq angle
    nlinarith [this]
  rw [hsq]
  exact Real.sqrt_sq h

theorem orbitRadius_start (distance : ℝ) (h : 0 ≤ distance) :
    orbitRadius Real.sqrt ⟨distance, 0, 0⟩ = distance := by
  unfold orbitRadius
  simp [Real.sqrt_sq h]

theorem createPlanet_onOrbit (d : PlanetData ℝ) (h : 0 ≤ d.distance) (randomAngle : ℝ) :
    OnOrbit (createPlanet d randomAngle) d := by
  refine ⟨rfl, rfl, h, orbitRadius_start _ h, ?_⟩
  unfold createPlanet
  dsimp only
  split
  · simp only [Option.map_some', addEarthMoon]
    rw [orbitRadius_start 3 (by norm_num)]
  · rfl

theorem updateOrbitGroup_onOrbit (speedMultipliers : String → Option ℝ) (deltaTime : ℝ)
    (g : OrbitGroup ℝ) (d : PlanetData ℝ) (h : OnOrbit g d) :
    OnOrbit (updateOrbitGroup Real.cos Real.sin speedMultipliers deltaTime g) d := by
  obtain ⟨hn, hd, h0, _, hm⟩ := h
  refine ⟨hn, hd, h0, ?_, ?_⟩
  · show orbitRadius Real.sqrt ⟨Real.cos _ * g.planet.distance, _, Real.sin _ * g.planet.distance⟩
      = d.distance
    rw [orbitRadius_polar _ _ (hd ▸ h0), hd]
  · show (if g.name = "earth" then g.moon.map _ else g.moon).map _ = _
    split
    · cases hmoon : g.moon with
      | none => rw [hmoon] at hm; simpa using hm
      | some moon =>
        rw [hmoon] at hm
        rw [← hm]
        simp only [Option.map_some', updateMoon]
        rw [orbitRadius_polar _ 3 (by norm_num)]
        simp only [Option.map_some'] at hm
        have h3 : (some (orbitRadius Real.sqrt moon.position) : Option ℝ) = some 3 := by
          rw [hm]
          split
          · rfl
          · rename_i hne
            rw [hn] at *
            contradiction
        rw [h3]
    · exact hm

theorem createPlanets_onOrbit (randomAngle : Nat → ℝ) (i : Nat) (catalog : List (PlanetData ℝ))
    (h : ∀ d ∈ catalog, 0 ≤ d.distance) :
    List.Forall₂ OnOrbit (createPlanets randomAngle i catalog) catalog := by
  induction catalog generalizing i with
  | nil => exact List.Forall₂.nil
  | cons d rest ih =>
    exact List.Forall₂.cons (createPlanet_onOrbit d (h d (List.mem_cons_self _ _)) _)
      (ih (i + 1) (fun e he => h e (List.mem_cons_of_mem _ he)))

theorem planetData_distance_nonneg : ∀ d ∈ (planetData (α := ℝ)), 0 ≤ d.distance := by
  intro d hd
  simp only [planetData, List.mem_cons, List.mem_singleton, List.not_mem_nil, or_false] at hd
  rcases hd with h | h | h | h | h | h | h | h <;> (rw [h]; norm_num)

theorem forall₂_onOrbit_radii {planets : List (OrbitGroup ℝ)} {catalog : List (PlanetData ℝ)}
    (h : List.Forall₂ OnOrbit planets catalog) :
    planets.map (fun g => (g.name, orbitRadius Real.sqrt g.planet.position)) =
      catalog.map (fun d => (d.name, d.distance)) ∧
    planets.map (fun g => (g.name, g.moon.map (fun m => orbitRadius Real.sqrt m.position))) =
      catalog.map (fun d => (d.name, if d.name = "earth" then some 3 else none)) := by
  induction h with
  | nil => exact ⟨rfl, rfl⟩
  | cons hgd _ ih =>
    obtain ⟨hn, _, _, hr, hm⟩ := hgd
    simp only [List.map_cons, ih.1, ih.2, hn, hr, hm, and_self]

/-- C3. In every reachable state (the constructed one, and after any sequence
of frames, paused or not, and of the other handlers) each planet lies at
`sqrt(x² + z²) = data.distance` in its orbit group, in catalog order, and the
only moon, that of the earth group, lies at `sqrt(x² + z²) = 3` in its parent
group. Numbers are real numbers, `Math.cos`, `Math.sin` the real functions. -/
theorem reachable_orbit_radius (controlsUpdate : ControlsUpdate ℝ) (toFixed : ℝ → String)
    (s : State ℝ) (h : Reachable Real.cos Real.sin controlsUpdate toFixed s) :
    s.planets.map (fun g => (g.name, orbitRadius Real.sqrt g.planet.position)) =
      (planetData (α := ℝ)).map (fun d => (d.name, d.distance)) ∧
    s.planets.map (fun g => (g.name, g.moon.map (fun m => orbitRadius Real.sqrt m.position))) =
      (planetData (α := ℝ)).map (fun d => (d.name, if d.name = "earth" then some 3 else none)) := by
  apply forall₂_onOrbit_radii
  refine Reachable.planets_induction
    (fun planets => List.Forall₂ OnOrbit planets (planetData (α := ℝ)))
    (fun randomAngle => createPlanets_onOrbit randomAngle 0 planetData
      planetData_distance_nonneg) ?_ h
  intro planets speedMultipliers deltaTime hp
  rw [List.forall₂_map_left_iff]
  exact List.Forall₂.imp (fun g d hgd => updateOrbitGroup_onOrbit _ _ g d hgd) hp

theorem reachable_orbit_radius_witness :
    Reachable Real.cos Real.sin idleControls (fun _ => "")
      (animate Real.cos Real.sin idleControls 1 sampleState) ∧
    (animate Real.cos Real.sin idleControls 1 sampleState).planets.map
        (fun g => (g.name, orbitRadius Real.sqrt g.planet.position)) =
      (planetData (α := ℝ)).map (fun d => (d.name, d.distance)) :=
  ⟨Reachable.animate 1 (Reachable.construct samplePage _),
    (reachable_orbit_radius idleControls (fun _ => "") _
      (Reachable.animate 1 (Reachable.construct samplePage _))).1⟩

end Radius

section TooltipPosition

variable {α : Type} [LinearOrderedField α]

/-- C4 as stated fails. (1) Viewport 200 × 200, tooltip 100 × 100, pointer
at (100, 50): the right-edge flip puts `left` at -15, and `top` is 0, below
10. (2) Viewport 1000 × 1000, tooltip 100 × 100, pointer at (500, 945):
`top` is 895, above `vh - H - 10 = 890`. -/
theorem updateTooltipPosition_outside_band :
    ((0 : ℚ) ≤ 100 ∧ (100 : ℚ) ≤ 200 ∧ (0 : ℚ) ≤ 50 ∧ (50 : ℚ) ≤ 200) ∧
    (updateTooltipPosition (⟨100, 100, 200, 200⟩ : Layout ℚ) 100 50 samplePage.tooltip).left
      = -15 ∧
    ¬ (0 ≤ (updateTooltipPosition (⟨100, 100, 200, 200⟩ : Layout ℚ) 100 50
      samplePage.tooltip).left) ∧
    (updateTooltipPosition (⟨100, 100, 200, 200⟩ : Layout ℚ) 100 50 samplePage.tooltip).top
      = 0 ∧
    ¬ (10 ≤ (updateTooltipPosition (⟨100, 100, 200, 200⟩ : Layout ℚ) 100 50
      samplePage.tooltip).top) ∧
    ((0 : ℚ) ≤ 500 ∧ (500 : ℚ) ≤ 1000 ∧ (0 : ℚ) ≤ 945 ∧ (945 : ℚ) ≤ 1000) ∧
    (updateTooltipPosition (⟨100, 100, 1000, 1000⟩ : Layout ℚ) 500 945
      samplePage.tooltip).top = 895 ∧
    ¬ ((updateTooltipPosition (⟨100, 100, 1000, 1000⟩ : Layout ℚ) 500 945
      samplePage.tooltip).top ≤ 1000 - 100 - 10) := by
  simp [updateTooltipPosition]
  norm_num

/-- C4, amended. For a pointer with `0 ≤ x ≤ vw`: `left ≤ vw - W` always;
`0 ≤ left` whenever the tooltip fits right of the pointer
(`x + 15 + W ≤ vw`) or left of it (`W + 15 ≤ x`); and when `H + 10 ≤ vh`,
`0 ≤ top ≤ vh - H`. -/
theorem updateTooltipPosition_bounds (layout : Layout α) (x y : α) (tooltip : Tooltip α)
    (hx0 : 0 ≤ x) (hx : x ≤ layout.windowWidth) :
    (updateTooltipPosition layout x y tooltip).left ≤ layout.windowWidth - layout.tooltipWidth ∧
    ((x + 15 + layout.tooltipWidth ≤ layout.windowWidth ∨ layout.tooltipWidth + 15 ≤ x) →
      0 ≤ (updateTooltipPosition layout x y tooltip).left) ∧
    (layout.tooltipHeight + 10 ≤ layout.windowHeight →
      0 ≤ (updateTooltipPosition layout x y tooltip).top ∧
      (updateTooltipPosition layout x y tooltip).top ≤
        layout.windowHeight - layout.tooltipHeight) := by
  unfold updateTooltipPosition
  dsimp only
  refine ⟨?_, ?_, ?_⟩
  · split <;> linarith
  · intro hfit
    split
    · rcases hfit with h1 | h1 <;> linarith
    · linarith
  · intro hfit
    by_cases h1 : y - layout.tooltipHeight / 2 < 0
    · rw [if_pos h1]
      split
      · constructor <;> linarith
      · constructor <;> linarith
    · rw [if_neg h1]
      split
      · constructor <;> linarith
      · constructor <;> linarith

theorem updateTooltipPosition_bounds_witness :
    (0 : ℚ) ≤ 900 ∧ (900 : ℚ) ≤ 1000 ∧
    (updateTooltipPosition (⟨200, 100, 1000, 800⟩ : Layout ℚ) 900 20 samplePage.tooltip).left
      ≤ 1000 - 200 ∧
    (((900 : ℚ) + 15 + 200 ≤ 1000 ∨ (200 : ℚ) + 15 ≤ 900) →
      0 ≤ (updateTooltipPosition (⟨200, 100, 1000, 800⟩ : Layout ℚ) 900 20
        samplePage.tooltip).left) ∧
    (((100 : ℚ) + 10 ≤ 800) →
      0 ≤ (updateTooltipPosition (⟨200, 100, 1000, 800⟩ : Layout ℚ) 900 20
        samplePage.tooltip).top ∧
      (updateTooltipPosition (⟨200, 100, 1000, 800⟩ : Layout ℚ) 900 20
        samplePage.tooltip).top ≤ 800 - 100) :=
  ⟨by norm_num, by norm_num,
    updateTooltipPosition_bounds (⟨200, 100, 1000, 800⟩ : Layout ℚ) 900 20 samplePage.tooltip
      (by norm_num) (by norm_num)⟩

end TooltipPosition

section Hover

variable {α : Type} [LinearOrderedField α]

omit [LinearOrderedField α] in
/-- The `mouseleave` handler hides the tooltip and keeps `hoveredPlanet`. -/
theorem onMouseLeave_effect (s : State α) :
    (onMouseLeave s).hoveredPlanet = s.hoveredPlanet ∧
    (onMouseLeave s).tooltip.visible = false :=
  ⟨rfl, rfl⟩

/-- C5, at the failing input. The pointer moves onto the sun (the sun is
hovered, the tooltip visible) and then leaves the canvas: the tooltip is
hidden but `hoveredPlanet` still refers to the sun, not to nothing. -/
theorem onMouseLeave_keeps_hovered_sun (layout : Layout ℚ) (x y : ℚ) :
    (onMouseMove layout x y [Mesh.sun] sampleState).hoveredPlanet = some "sun" ∧
    (onMouseMove layout x y [Mesh.sun] sampleState).tooltip.visible = true ∧
    (onMouseLeave (onMouseMove layout x y [Mesh.sun] sampleState)).hoveredPlanet
      = some "sun" ∧
    (onMouseLeave (onMouseMove layout x y [Mesh.sun] sampleState)).hoveredPlanet ≠ none ∧
    (onMouseLeave (onMouseMove layout x y [Mesh.sun] sampleState)).tooltip.visible = false := by
  simp [onMouseLeave, onMouseMove, sampleState, construct, Mesh.name, showTooltip,
    updateTooltipPosition, hideTooltip]

/-- C6, at the failing input. The pointer moves onto the sun, leaves the
canvas, and moves onto the sun again. After that last `onMouseMove` the ray
hits the sun and the sun is the hovered body, but the tooltip is not visible:
the handler found `hoveredPlanet` already equal to the hit and did not call
`showTooltip`. -/
theorem onMouseMove_after_leave_hidden (layout : Layout ℚ) (x y : ℚ) :
    (onMouseMove layout x y [Mesh.sun]
      (onMouseLeave (onMouseMove layout x y [Mesh.sun] sampleState))).hoveredPlanet
      = some "sun" ∧
    (onMouseMove layout x y [Mesh.sun]
      (onMouseLeave (onMouseMove layout x y [Mesh.sun] sampleState))).tooltip.visible
      = false := by
  simp [onMouseLeave, onMouseMove, sampleState, construct, Mesh.name, showTooltip,
    updateTooltipPosition, hideTooltip]

/-- Without `mouseleave`: if the tooltip is visible exactly when a body is
hovered, then after `onMouseMove` the hovered body is the nearest hit, or
none when nothing is hit, and the tooltip is again visible exactly when a
body is hovered. -/
theorem onMouseMove_visible_iff_hovered (layout : Layout α) (x y : α)
    (intersects : List (Mesh α)) (s : State α)
    (h : s.tooltip.visible = s.hoveredPlanet.isSome) :
    (onMouseMove layout x y intersects s).hoveredPlanet =
      intersects.head?.map Mesh.name ∧
    (onMouseMove layout x y intersects s).tooltip.visible =
      (onMouseMove layout x y intersects s).hoveredPlanet.isSome := by
  unfold onMouseMove
  cases intersects with
  | nil =>
    dsimp only
    cases hh : s.hoveredPlanet with
    | none => simp [hh, h]
    | some b => simp [hideTooltip]
  | cons hit rest =>
    dsimp only
    by_cases hne : some hit.name ≠ s.hoveredPlanet
    · rw [if_pos hne]
      simp [updateTooltipPosition, showTooltip]
    · rw [if_neg hne]
      have heq : s.hoveredPlanet = some hit.name := by
        by_contra hc
        exact hne (fun e => hc e.symm)
      simp [updateTooltipPosition, heq, h]

end Hover

section Lookup

variable {α : Type}

theorem find_of_matchesCatalog {planets : List (OrbitGroup α)} {catalog : List (PlanetData α)}
    (h : List.Forall₂ MatchesCatalog planets catalog)
    (hnodup : (catalog.map PlanetData.name).Nodup) (d : PlanetData α) (hd : d ∈ catalog) :
    ∃ g, planets.find? (fun p => p.name == d.name) = some g ∧ MatchesCatalog g d := by
  induction h with
  | nil => exact absurd hd (List.not_mem_nil d)
  | @cons g e gs es hge _ ih =>
    rw [List.map_cons, List.nodup_cons] at hnodup
    rcases List.mem_cons.mp hd with rfl | hmem
    · exact ⟨g, by simp [List.find?_cons, hge.1], hge⟩
    · have hne : g.name ≠ d.name := by
        intro heq
        apply hnodup.1
        rw [← hge.1, heq]
        exact List.mem_map_of_mem _ hmem
      obtain ⟨g', hfind, hm⟩ := ih hnodup.2 hmem
      exact ⟨g', by simp [List.find?_cons, hne, hfind], hm⟩

theorem find_none_of_matchesCatalog {planets : List (OrbitGroup α)}
    {catalog : List (PlanetData α)} (h : List.Forall₂ MatchesCatalog planets catalog)
    (name : String) (hname : name ∉ catalog.map PlanetData.name) :
    planets.find? (fun p => p.name == name) = none := by
  induction h with
  | nil => rfl
  | @cons g e gs es hge _ ih =>
    rw [List.map_cons, List.mem_cons, not_or] at hname
    have hne : g.name ≠ name := by
      intro heq
      exact hname.1 (by rw [← heq, hge.1])
    simp [List.find?_cons, hne, ih hname.2]

end Lookup

section Focus

variable {α : Type} [LinearOrderedField α]

theorem planetData_names : (planetData (α := α)).map PlanetData.name = planetNames := by
  simp [planetData, planetNames]

theorem planetNames_nodup : planetNames.Nodup := by
  simp [planetNames, planetData]

theorem lerpVectors_one (v1 v2 : Vector3 α) : Vector3.lerpVectors v1 v2 1 = v2 := by
  cases v2
  simp [Vector3.lerpVectors]

theorem animateStep_progress_one (a : CameraAnimation α) (now : Int)
    (h : 2000 ≤ now - a.startTime) :
    min ((((now - a.startTime : Int) : α)) / 2000) 1 = 1 := by
  apply min_eq_right
  rw [le_div_iff₀ (by norm_num : (0 : α) < 2000), one_mul]
  exact_mod_cast h

/-- A step of `animateStep` with `elapsed ≥ 2000` hands the destination and
the look-at point to `controls.update()` and requests no further step. -/
theorem animateStep_finished (controlsUpdate : ControlsUpdate α) (a : CameraAnimation α)
    (now : Int) (s : State α) (h : 2000 ≤ now - a.startTime) :
    (animateStep controlsUpdate a now s).1.cameraPosition =
      (controlsUpdate (a.targetPosition, a.lookAtPosition)).1 ∧
    (animateStep controlsUpdate a now s).1.controlsTarget =
      (controlsUpdate (a.targetPosition, a.lookAtPosition)).2 ∧
    (animateStep controlsUpdate a now s).2 = false := by
  unfold animateStep
  simp only [animateStep_progress_one a now h, sub_self, ne_eq, OfNat.ofNat_ne_zero,
    not_false_eq_true, zero_pow, sub_zero, lerpVectors_one, lt_self_iff_false, decide_False,
    and_self]

/-- C7 as stated fails for a body that moves. On the sample state the earth
is at `(30, 0, 0)` when `focusOnPlanet('earth')` runs at time 0; one unpaused
frame with `deltaTime = 2` then carries the earth to angle `0.06`; the step
at `elapsed = 2000` leaves the controls target at `(30, 0, 0)`, while the
earth's world position is `(30 cos 0.06, 0, 30 sin 0.06)`. The views handed
to `controls.update()` are within its distance range. -/
theorem focusOnPlanet_target_stale :
    (focusOnPlanet idleControls "earth" 0 0 (sampleState (α := ℝ))).2.map Prod.fst =
      some earthFocusAnimation ∧
    WithinControlsRange ((earthFocusAnimation (α := ℝ)).targetPosition,
      (earthFocusAnimation (α := ℝ)).lookAtPosition) ∧
    (animateStep idleControls earthFocusAnimation 2000
      (animate Real.cos Real.sin idleControls 2
        (focusOnPlanet idleControls "earth" 0 0 (sampleState (α := ℝ))).1)).1.controlsTarget =
      ⟨30, 0, 0⟩ ∧
    focusWorldPosition "earth" (animateStep idleControls earthFocusAnimation 2000
      (animate Real.cos Real.sin idleControls 2
        (focusOnPlanet idleControls "earth" 0 0 (sampleState (α := ℝ))).1)).1 =
      some ⟨Real.cos (3 / 50) * 30, 0, Real.sin (3 / 50) * 30⟩ ∧
    Real.sin (3 / 50) * 30 ≠ 0 ∧
    (⟨Real.cos (3 / 50) * 30, 0, Real.sin (3 / 50) * 30⟩ : Vector3 ℝ) ≠ ⟨30, 0, 0⟩ := by
  have hsin : Real.sin (3 / 50) * 30 ≠ 0 := by
    have h : 0 < Real.sin (3 / 50) :=
      Real.sin_pos_of_pos_of_lt_pi (by norm_num) (by linarith [Real.pi_gt_three])
    positivity
  refine ⟨?_, ?_, ?_, ?_, hsin, fun h => hsin (congrArg Vector3.z h)⟩
  · simp [focusOnPlanet, focusTarget, animateCamera, earthFocusAnimation, Mesh.getWorldPosition,
      Vector3.add, sampleState, construct, createPlanets, planetData, createPlanet]
    norm_num
  · simp only [WithinControlsRange, distanceSq, earthFocusAnimation]
    norm_num
  · rw [(animateStep_finished idleControls earthFocusAnimation 2000 _ (by decide)).2.1]
    rfl
  · simp [focusWorldPosition, focusTarget, animateStep, animate, focusOnPlanet, animateCamera,
      sampleState, construct, createPlanets, planetData, createPlanet, updateOrbitGroup,
      speedMultiplierOr, initialSpeedMultipliers, setKey, Mesh.getWorldPosition]
    norm_num

theorem focusWorldPosition_animateStep (controlsUpdate : ControlsUpdate α)
    (a : CameraAnimation α) (now : Int) (planetName : String) (s : State α) :
    focusWorldPosition planetName (animateStep controlsUpdate a now s).1 =
      focusWorldPosition planetName s := rfl

/-- The sun never moves: its world position is the origin in every state. -/
theorem focusWorldPosition_sun (s : State α) :
    focusWorldPosition "sun" s = some ⟨0, 0, 0⟩ := by
  simp [focusWorldPosition, focusTarget, Mesh.getWorldPosition]

/-- C7, amended. When `focusOnPlanet` finds a target object (the sun, or the
planet of an orbit group), it starts an animation, and every step of that
animation run with `elapsed ≥ 2000`, from whatever state, leaves the camera
at the world position the target had when `focusOnPlanet` ran plus
`(distance, 0.5 * distance, distance)` and the controls target at that same
world position, and requests no further step; the controls target is the
body's world position at the step whenever that position is the one it had
when `focusOnPlanet` ran. `controls.update()`, which ends the step, is taken
to keep that view, as it does with no pending user input. -/
theorem focusOnPlanet_end_state (controlsUpdate : ControlsUpdate α) (planetName : String)
    (startTime now0 : Int) (s : State α) (targetObject : Mesh α) (distance : α)
    (htarget : focusTarget planetName s = (some targetObject, distance))
    (hcontrols : controlsUpdate
        (targetObject.getWorldPosition.add ⟨distance, distance * 0.5, distance⟩,
          targetObject.getWorldPosition) =
      (targetObject.getWorldPosition.add ⟨distance, distance * 0.5, distance⟩,
        targetObject.getWorldPosition)) :
    ∃ (a : CameraAnimation α) (requested : Bool),
      (focusOnPlanet controlsUpdate planetName startTime now0 s).2 = some (a, requested) ∧
      a.startTime = startTime ∧
      (focusOnPlanet controlsUpdate planetName startTime now0 s).1 =
        (animateStep controlsUpdate a now0 s).1 ∧
      ∀ (now : Int) (s1 : State α), 2000 ≤ now - startTime →
        (animateStep controlsUpdate a now s1).1.cameraPosition =
          targetObject.getWorldPosition.add ⟨distance, distance * 0.5, distance⟩ ∧
        (animateStep controlsUpdate a now s1).1.controlsTarget =
          targetObject.getWorldPosition ∧
        (animateStep controlsUpdate a now s1).2 = false ∧
        (focusWorldPosition planetName s1 = focusWorldPosition planetName s →
          focusWorldPosition planetName (animateStep controlsUpdate a now s1).1 =
            some (animateStep controlsUpdate a now s1).1.controlsTarget) := by
  have hworld : focusWorldPosition planetName s = some targetObject.getWorldPosition := by
    simp [focusWorldPosition, htarget]
  unfold focusOnPlanet
  rw [htarget]
  refine ⟨_, _, rfl, rfl, rfl, ?_⟩
  intro now s1 hnow
  have hfin := animateStep_finished controlsUpdate
    { startPosition := s.cameraPosition, startLookAt := s.controlsTarget,
      targetPosition := targetObject.getWorldPosition.add ⟨distance, distance * 0.5, distance⟩,
      lookAtPosition := targetObject.getWorldPosition, startTime := startTime } now s1 hnow
  dsimp only at hfin
  rw [hcontrols] at hfin
  refine ⟨hfin.1, hfin.2.1, hfin.2.2, ?_⟩
  intro hsame
  rw [focusWorldPosition_animateStep, hsame, hworld, hfin.2.1]

theorem focusOnPlanet_end_state_witness :
    focusTarget "earth" (sampleState (α := ℚ)) = (some (Mesh.planet sampleEarth), 30 + 10) ∧
    idleControls
        ((Mesh.planet (sampleEarth (α := ℚ))).getWorldPosition.add
          ⟨30 + 10, (30 + 10) * 0.5, 30 + 10⟩,
          (Mesh.planet (sampleEarth (α := ℚ))).getWorldPosition) =
      ((Mesh.planet (sampleEarth (α := ℚ))).getWorldPosition.add
          ⟨30 + 10, (30 + 10) * 0.5, 30 + 10⟩,
        (Mesh.planet (sampleEarth (α := ℚ))).getWorldPosition) ∧
    ∃ (a : CameraAnimation ℚ) (requested : Bool),
      (focusOnPlanet idleControls "earth" 0 0 sampleState).2 = some (a, requested) ∧
      a.startTime = 0 ∧
      (focusOnPlanet idleControls "earth" 0 0 sampleState).1 =
        (animateStep idleControls a 0 sampleState).1 ∧
      ∀ (now : Int) (s1 : State ℚ), 2000 ≤ now - 0 →
        (animateStep idleControls a now s1).1.cameraPosition =
          (Mesh.planet (sampleEarth (α := ℚ))).getWorldPosition.add
            ⟨30 + 10, (30 + 10) * 0.5, 30 + 10⟩ ∧
        (animateStep idleControls a now s1).1.controlsTarget =
          (Mesh.planet (sampleEarth (α := ℚ))).getWorldPosition ∧
        (animateStep idleControls a now s1).2 = false ∧
        (focusWorldPosition "earth" s1 = focusWorldPosition "earth" sampleState →
          focusWorldPosition "earth" (animateStep idleControls a now s1).1 =
            some (animateStep idleControls a now s1).1.controlsTarget) :=
  ⟨by simp [focusTarget, sampleState, construct, createPlanets, planetData, sampleEarth,
      createPlanet], rfl,
    focusOnPlanet_end_state idleControls "earth" 0 0 sampleState (Mesh.planet sampleEarth)
      (30 + 10)
      (by simp [focusTarget, sampleState, construct, createPlanets, planetData, sampleEarth,
      createPlanet])
      rfl⟩

/-- What `focusOnPlanet` passes to `animateCamera` once a target is found. -/
theorem focusOnPlanet_of_target (controlsUpdate : ControlsUpdate α) (planetName : String)
    (startTime now : Int) (s : State α) (targetObject : Mesh α) (distance : α)
    (htarget : focusTarget planetName s = (some targetObject, distance)) :
    ∃ (a : CameraAnimation α) (requested : Bool),
      (focusOnPlanet controlsUpdate planetName startTime now s).2 = some (a, requested) ∧
      a.targetPosition =
        targetObject.getWorldPosition.add ⟨distance, distance * 0.5, distance⟩ ∧
      a.lookAtPosition = targetObject.getWorldPosition := by
  unfold focusOnPlanet
  rw [htarget]
  exact ⟨_, _, rfl, rfl, rfl⟩

theorem sun_not_mem_planetNames : "sun" ∉ planetNames := by
  simp [planetNames, planetData]

/-- C8. In every reachable state `focusOnPlanet('sun')` resolves the sun
with distance 30, and for every catalog planet `focusOnPlanet(name)` resolves
the planet mesh of the group of that name with distance
`data.distance + 10`; in both cases `animateCamera` receives the world
position of the target plus `(d, 0.5 * d, d)` as destination and the world
position itself as look-at point. -/
theorem focusOnPlanet_arguments (cos sin : α → α) (controlsUpdate : ControlsUpdate α)
    (toFixed : α → String) (startTime now : Int) (s : State α)
    (h : Reachable cos sin controlsUpdate toFixed s) :
    (focusTarget "sun" s = (some Mesh.sun, 30) ∧
      ∃ (a : CameraAnimation α) (requested : Bool),
        (focusOnPlanet controlsUpdate "sun" startTime now s).2 = some (a, requested) ∧
        a.targetPosition = (⟨0, 0, 0⟩ : Vector3 α).add ⟨30, 30 * 0.5, 30⟩ ∧
        a.lookAtPosition = ⟨0, 0, 0⟩) ∧
    ∀ d ∈ (planetData (α := α)), ∃ g : OrbitGroup α,
      findGroup d.name s = some g ∧
      focusTarget d.name s = (some (Mesh.planet g.planet), d.distance + 10) ∧
      ∃ (a : CameraAnimation α) (requested : Bool),
        (focusOnPlanet controlsUpdate d.name startTime now s).2 = some (a, requested) ∧
        a.targetPosition = g.planet.position.add
          ⟨d.distance + 10, (d.distance + 10) * 0.5, d.distance + 10⟩ ∧
        a.lookAtPosition = g.planet.position := by
  have hsun : focusTarget "sun" s = (some Mesh.sun, 30) := by simp [focusTarget]
  refine ⟨⟨hsun, focusOnPlanet_of_target controlsUpdate "sun" startTime now s _ _ hsun⟩, ?_⟩
  intro d hd
  obtain ⟨g, hfind, hm⟩ := find_of_matchesCatalog h.matchesCatalog
    (by rw [planetData_names]; exact planetNames_nodup) d hd
  have hne : d.name ≠ "sun" := by
    intro heq
    apply sun_not_mem_planetNames
    rw [← heq, ← planetData_names (α := α)]
    exact List.mem_map_of_mem _ hd
  have htarget : focusTarget d.name s = (some (Mesh.planet g.planet), d.distance + 10) := by
    simp [focusTarget, hne, hfind, hm.2]
  exact ⟨g, hfind, htarget,
    focusOnPlanet_of_target controlsUpdate d.name startTime now s _ _ htarget⟩

theorem focusOnPlanet_arguments_witness :
    Reachable id id idleControls (fun _ => "") (sampleState (α := ℚ)) ∧
    focusTarget "sun" (sampleState (α := ℚ)) = (some Mesh.sun, 30) :=
  ⟨Reachable.construct samplePage _,
    (focusOnPlanet_arguments id id idleControls (fun _ => "") 0 0 sampleState
      (Reachable.construct samplePage _)).1.1⟩

/-- C9. In every reachable state, for a name that is neither `'sun'` nor a
catalog planet name, `focusOnPlanet(name)` returns the state it was given
(camera position and controls target included) and calls no `animateCamera`;
so does a click whose nearest hit is a mesh of that name, such as the moon. -/
theorem focusOnPlanet_unknown_noop (cos sin : α → α) (controlsUpdate : ControlsUpdate α)
    (toFixed : α → String) (startTime now : Int) (s : State α) (planetName : String)
    (h : Reachable cos sin controlsUpdate toFixed s)
    (hsun : planetName ≠ "sun") (hcatalog : planetName ∉ planetNames) :
    focusOnPlanet controlsUpdate planetName startTime now s = (s, none) ∧
    ∀ (hit : Mesh α) (rest : List (Mesh α)), hit.name = planetName →
      onMouseClick controlsUpdate (hit :: rest) startTime now s = (s, none) := by
  have hfind := find_none_of_matchesCatalog h.matchesCatalog planetName
    (by rw [planetData_names]; exact hcatalog)
  have hfocus : focusOnPlanet controlsUpdate planetName startTime now s = (s, none) := by
    simp [focusOnPlanet, focusTarget, hsun, hfind]
  refine ⟨hfocus, ?_⟩
  intro hit rest hname
  simp only [onMouseClick, hname, hfocus]

theorem focusOnPlanet_unknown_noop_witness :
    Reachable id id idleControls (fun _ => "") (sampleState (α := ℚ)) ∧
    "moon" ≠ "sun" ∧ "moon" ∉ planetNames ∧
    focusOnPlanet idleControls "moon" 0 0 (sampleState (α := ℚ)) = (sampleState, none) :=
  ⟨Reachable.construct samplePage _, by decide, by simp [planetNames, planetData],
    (focusOnPlanet_unknown_noop id id idleControls (fun _ => "") 0 0 sampleState "moon"
      (Reachable.construct samplePage _) (by decide)
      (by simp [planetNames, planetData])).1⟩

end Focus

section Speeds

variable {α : Type} [LinearOrderedField α]

/-- C10. Whatever the state before, after `resetAllSpeeds()` every catalog
planet has multiplier `1`, slider value `1` and the text `Speed: 1.0x`. -/
theorem resetAllSpeeds_restores (s : State α) (name : String) (h : name ∈ planetNames) :
    (resetAllSpeeds s).speedMultipliers name = some 1 ∧
    (resetAllSpeeds s).sliderValue name = 1 ∧
    (resetAllSpeeds s).valueDisplay name = "Speed: 1.0x" := by
  have h1 : (1.0 : α) = 1 := by norm_num
  simp only [planetNames, planetData, List.map_cons, List.map_nil, List.mem_cons,
    List.mem_singleton, List.not_mem_nil, or_false] at h
  rcases h with rfl | rfl | rfl | rfl | rfl | rfl | rfl | rfl <;>
    simp [resetAllSpeeds, planetData, resetSpeed, setKey, h1]

theorem resetAllSpeeds_restores_witness :
    "earth" ∈ planetNames ∧
    (sliderInput (fun _ => "3.0") "earth" 3 (sampleState (α := ℚ))).speedMultipliers "earth"
      = some 3 ∧
    (resetAllSpeeds (sliderInput (fun _ => "3.0") "earth" 3
      (sampleState (α := ℚ)))).speedMultipliers "earth" = some 1 ∧
    (resetAllSpeeds (sliderInput (fun _ => "3.0") "earth" 3
      (sampleState (α := ℚ)))).valueDisplay "earth" = "Speed: 1.0x" :=
  ⟨by simp [planetNames, planetData], by simp [sliderInput, setKey],
    (resetAllSpeeds_restores _ "earth" (by simp [planetNames, planetData])).1,
    (resetAllSpeeds_restores _ "earth" (by simp [planetNames, planetData])).2.2⟩

end Speeds

section ListFacts

variable {β : Type}

theorem eraseP_filter_self (p : β → Bool) (l : List β) :
    (l.eraseP p).filter p = (l.filter p).tail := by
  induction l with
  | nil => rfl
  | cons x xs ih =>
    cases hx : p x
    · simp [List.eraseP_cons, List.filter_cons, hx, ih]
    · simp [List.eraseP_cons, List.filter_cons, hx]

theorem eraseP_filter_disjoint (p q : β → Bool) (h : ∀ x, p x = true → q x = false)
    (l : List β) : (l.eraseP p).filter q = l.filter q := by
  induction l with
  | nil => rfl
  | cons x xs ih =>
    cases hx : p x
    · simp [List.eraseP_cons, List.filter_cons, hx, ih]
    · simp [List.eraseP_cons, List.filter_cons, hx, h x hx]

end ListFacts

section ThemeBasics

variable {α : Type}

theorem isPoints_not_isLight (c : SceneObject α) (h : c.isPoints = true) : c.isLight = false := by
  cases c <;> simp_all [SceneObject.isPoints, SceneObject.isLight]

theorem createStarField_children (t : ThemeState α) :
    (createStarField t).children =
      t.children.eraseP SceneObject.isPoints ++ themeStars t.isLightMode := by
  unfold createStarField themeStars
  dsimp only
  cases hfind : t.children.find? SceneObject.isPoints with
  | some c => rfl
  | none =>
    have hnone : ∀ x ∈ t.children, ¬ (SceneObject.isPoints x = true) := by
      simpa using hfind
    rw [List.eraseP_of_forall_not hnone]

theorem createStarField_isLightMode (t : ThemeState α) :
    (createStarField t).isLightMode = t.isLightMode := rfl

theorem createStarField_background (t : ThemeState α) :
    (createStarField t).background = t.background := rfl

theorem sceneLights_createStarField (t : ThemeState α) :
    sceneLights (createStarField t) = sceneLights t := by
  unfold sceneLights
  rw [createStarField_children, List.filter_append,
    eraseP_filter_disjoint _ _ isPoints_not_isLight]
  cases t.isLightMode <;> simp [themeStars, SceneObject.isLight]

theorem sceneStars_createStarField (t : ThemeState α) :
    sceneStars (createStarField t) = (sceneStars t).tail ++ themeStars t.isLightMode := by
  unfold sceneStars
  rw [createStarField_children, List.filter_append, eraseP_filter_self]
  cases t.isLightMode <;> simp [themeStars, SceneObject.isPoints]

theorem starCounts_of_stars (t : ThemeState α) (isLightMode : Bool)
    (h : sceneStars t = themeStars isLightMode) :
    starCounts t = [if isLightMode then 5000 else 15000] := by
  have hview : starCounts t = (sceneStars t).filterMap (fun child =>
      match child with
      | .points starCount _ _ => some starCount
      | _ => none) := by
    unfold starCounts sceneStars
    induction t.children with
    | nil => rfl
    | cons c rest ih =>
      cases c <;> simp [List.filterMap_cons, List.filter_cons, SceneObject.isPoints, ih]
  rw [hview, h]
  simp [themeStars]

end ThemeBasics

section Theme

variable {α : Type} [LinearOrderedField α]

theorem sceneLights_setupLighting (t : ThemeState α) :
    sceneLights (setupLighting t) = themeLights t.isLightMode := by
  unfold sceneLights setupLighting themeLights
  simp [List.filter_append, List.filter_filter, SceneObject.isLight]

theorem sceneStars_setupLighting (t : ThemeState α) :
    sceneStars (setupLighting t) = sceneStars t := by
  unfold sceneStars setupLighting
  simp only [List.filter_append, List.filter_filter]
  have hcongr : t.children.filter (fun a => a.isPoints && !a.isLight) =
      t.children.filter SceneObject.isPoints := by
    apply List.filter_congr
    intro c _
    cases c <;> simp [SceneObject.isPoints, SceneObject.isLight]
  rw [hcongr]
  simp [SceneObject.isPoints]

/-- One theme toggle from a scene with at most one star field flips the flag
and leaves the scene agreeing with the new flag. -/
theorem themeClick_consistent (t : ThemeState α) (hstars : (sceneStars t).length ≤ 1) :
    (themeClick t).isLightMode = (!t.isLightMode) ∧ ThemeConsistent (themeClick t) := by
  have hflag : (themeClick t).isLightMode = (!t.isLightMode) := by
    unfold themeClick updateSceneBackground
    rw [createStarField_isLightMode]
    cases t.isLightMode <;> rfl
  refine ⟨hflag, ?_, ?_, ?_⟩
  · rw [hflag]
    unfold themeClick updateSceneBackground
    rw [createStarField_background]
    cases t.isLightMode <;> rfl
  · rw [hflag]
    unfold themeClick
    rw [sceneLights_createStarField, sceneLights_setupLighting]
    unfold updateSceneBackground
    cases t.isLightMode <;> rfl
  · rw [hflag]
    unfold themeClick
    rw [sceneStars_createStarField, sceneStars_setupLighting]
    have htail : (sceneStars (updateSceneBackground
        { t with isLightMode := !t.isLightMode })).tail = [] := by
      have hsame : sceneStars (updateSceneBackground { t with isLightMode := !t.isLightMode }) =
          sceneStars t := by
        unfold updateSceneBackground sceneStars
        cases t.isLightMode <;> rfl
      rw [hsame]
      cases hs : sceneStars t with
      | nil => rfl
      | cons c rest =>
        rw [hs] at hstars
        cases rest with
        | nil => rfl
        | cons c2 rest2 => simp at hstars
    rw [htail]
    unfold updateSceneBackground setupLighting
    cases t.isLightMode <;> rfl

theorem initTheme_consistent : ThemeConsistent (initTheme (α := α)) := by
  refine ⟨rfl, ?_, ?_⟩
  · unfold initTheme
    rw [sceneLights_createStarField]
    simp [sceneLights, setupLighting, updateSceneBackground, solarSystemChildren, planetNames,
      planetData, themeLights, SceneObject.isLight, createStarField_isLightMode]
  · unfold initTheme
    rw [sceneStars_createStarField]
    simp [sceneStars, setupLighting, updateSceneBackground, solarSystemChildren, planetNames,
      planetData, themeStars, SceneObject.isPoints, createStarField_isLightMode]

theorem ThemeReachable.consistent {t : ThemeState α} (h : ThemeReachable t) :
    ThemeConsistent t := by
  induction h with
  | init => exact initTheme_consistent
  | @themeClick u _ ih =>
    refine (themeClick_consistent u ?_).2
    rw [ih.2.2]
    cases u.isLightMode <;> simp [themeStars]

theorem ambientIntensities_of_lights (t : ThemeState α) (isLightMode : Bool)
    (h : sceneLights t = themeLights isLightMode) :
    ambientIntensities t = [if isLightMode then 0.3 else 0.1] := by
  have hview : ambientIntensities t = (sceneLights t).filterMap (fun child =>
      match child with
      | .ambientLight _ intensity => some intensity
      | _ => none) := by
    unfold ambientIntensities sceneLights
    induction t.children with
    | nil => rfl
    | cons c rest ih =>
      cases c <;> simp [List.filterMap_cons, List.filter_cons, SceneObject.isLight, ih]
  rw [hview, h]
  simp [themeLights]

/-- C11. From every state reachable by theme toggles, two theme toggles
restore the light-mode flag, the background color, the ambient light
intensity and the star count, and the scene then holds exactly one ambient
light and one point light (its only lights) and exactly one star field. -/
theorem themeClick_twice_restores (t : ThemeState α) (h : ThemeReachable t) :
    (themeClick (themeClick t)).isLightMode = t.isLightMode ∧
    (themeClick (themeClick t)).background = t.background ∧
    ambientIntensities (themeClick (themeClick t)) = ambientIntensities t ∧
    starCounts (themeClick (themeClick t)) = starCounts t ∧
    (ambientIntensities (themeClick (themeClick t))).length = 1 ∧
    (starCounts (themeClick (themeClick t))).length = 1 ∧
    sceneLights (themeClick (themeClick t)) =
      [ SceneObject.ambientLight 0x404040 (if t.isLightMode then 0.3 else 0.1),
        SceneObject.pointLight 0xffffff (if t.isLightMode then 1.5 else 2) 1000 ] ∧
    sceneStars (themeClick (themeClick t)) =
      [ SceneObject.points (if t.isLightMode then 5000 else 15000)
          (if t.isLightMode then 0x666666 else 0xffffff) (if t.isLightMode then 1 else 2) ] := by
  have h0 := h.consistent
  have h2 := (ThemeReachable.themeClick (ThemeReachable.themeClick h)).consistent
  have hstars : ∀ u : ThemeState α, ThemeConsistent u → (sceneStars u).length ≤ 1 := by
    intro u hu
    rw [hu.2.2]
    cases u.isLightMode <;> simp [themeStars]
  have hflag : (themeClick (themeClick t)).isLightMode = t.isLightMode := by
    rw [(themeClick_consistent _ (hstars _ (ThemeReachable.themeClick h).consistent)).1,
      (themeClick_consistent _ (hstars _ h0)).1, Bool.not_not]
  unfold ThemeConsistent at h2
  rw [hflag] at h2
  refine ⟨hflag, ?_, ?_, ?_, ?_, ?_, h2.2.1, h2.2.2⟩
  · rw [h2.1, h0.1]
  · rw [ambientIntensities_of_lights _ _ h2.2.1, ambientIntensities_of_lights _ _ h0.2.1]
  · rw [starCounts_of_stars _ _ h2.2.2, starCounts_of_stars _ _ h0.2.2]
  · rw [ambientIntensities_of_lights _ _ h2.2.1]
    rfl
  · rw [starCounts_of_stars _ _ h2.2.2]
    rfl

theorem themeClick_twice_restores_witness :
    ThemeReachable (themeClick (initTheme (α := ℚ))) ∧
    (themeClick (themeClick (themeClick (initTheme (α := ℚ))))).isLightMode =
      (themeClick (initTheme (α := ℚ))).isLightMode ∧
    (themeClick (themeClick (themeClick (initTheme (α := ℚ))))).background =
      (themeClick (initTheme (α := ℚ))).background :=
  ⟨ThemeReachable.themeClick ThemeReachable.init,
    (themeClick_twice_restores _ (ThemeReachable.themeClick ThemeReachable.init)).1,
    (themeClick_twice_restores _ (ThemeReachable.themeClick ThemeReachable.init)).2.1⟩

end Theme

section Easing

variable {α : Type} [LinearOrderedField α]

theorem animateStep_eq (controlsUpdate : ControlsUpdate α) (a : CameraAnimation α) (now : Int)
    (s : State α) :
    animateStep controlsUpdate a now s =
      ({ s with
          cameraPosition := (controlsUpdate (stepView a now)).1,
          controlsTarget := (controlsUpdate (stepView a now)).2 },
        decide (stepProgress a now < 1)) := rfl

theorem stepProgress_le_one (a : CameraAnimation α) (now : Int) : stepProgress a now ≤ 1 :=
  min_le_right _ _

theorem stepProgress_nonneg (a : CameraAnimation α) (now : Int) (h : a.startTime ≤ now) :
    0 ≤ stepProgress a now := by
  unfold stepProgress
  apply le_min _ zero_le_one
  apply div_nonneg _ (by norm_num)
  have : (0 : Int) ≤ now - a.startTime := by omega
  exact_mod_cast this

theorem stepProgress_mono (a : CameraAnimation α) (now1 now2 : Int) (h : now1 ≤ now2) :
    stepProgress a now1 ≤ stepProgress a now2 := by
  unfold stepProgress
  apply min_le_min _ le_rfl
  apply div_le_div_of_nonneg_right _ (by norm_num)
  have : now1 - a.startTime ≤ now2 - a.startTime := by omega
  exact_mod_cast this

theorem stepEase_mono (a : CameraAnimation α) (now1 now2 : Int) (h : now1 ≤ now2) :
    stepEase a now1 ≤ stepEase a now2 := by
  unfold stepEase
  have h1 := stepProgress_mono a now1 now2 h
  have h2 := stepProgress_le_one a now2
  have hpow : (1 - stepProgress a now2) ^ 3 ≤ (1 - stepProgress a now1) ^ 3 :=
    pow_le_pow_left₀ (by linarith) (by linarith) 3
  linarith

theorem stepEase_mem (a : CameraAnimation α) (now : Int) (h : a.startTime ≤ now) :
    0 ≤ stepEase a now ∧ stepEase a now ≤ 1 := by
  unfold stepEase
  have h0 := stepProgress_nonneg a now h
  have h1 := stepProgress_le_one a now
  have hq0 : (0 : α) ≤ 1 - stepProgress a now := by linarith
  have hq1 : 1 - stepProgress a now ≤ 1 := by linarith
  have hp0 : 0 ≤ (1 - stepProgress a now) ^ 3 := pow_nonneg hq0 3
  have hp1 : (1 - stepProgress a now) ^ 3 ≤ 1 := pow_le_one₀ hq0 hq1
  constructor <;> linarith

/-- The sample animation is the closure `focusOnPlanet('sun')` builds on
the sample state when `Date.now()` reads 2000. -/
theorem focusOnPlanet_sun_sampleAnimation :
    (focusOnPlanet idleControls "sun" 2000 2000 (sampleState (α := ℚ))).2.map Prod.fst =
      some sampleAnimation := by
  simp [focusOnPlanet, focusTarget, animateCamera, sampleAnimation, Mesh.getWorldPosition,
    Vector3.add, sampleState, construct]
  norm_num

/-- C12 as stated fails. On the sample animation (start time 2000, camera
from (0, 50, 100) to (30, 15, 30), look-at fixed at the origin) a step that
reads `Date.now() = 1800`, a clock set back by 0.2 s, has `elapsed = -200`:
`progress` is `-0.1`, not `clamp(-0.1, 0, 1) = 0`; the weight is `-0.331`,
outside `[0, 1]`; and the interpolated camera position, at `x = -9.93`, is
not on the segment from start to destination. That view is within the
distance range of `controls.update()`, which keeps it. -/
theorem animateStep_negative_elapsed :
    stepProgress (sampleAnimation (α := ℚ)) 1800 = -1 / 10 ∧
    clamp ((((1800 - 2000 : Int) : ℚ)) / 2000) 0 1 = 0 ∧
    stepEase (sampleAnimation (α := ℚ)) 1800 = -331 / 1000 ∧
    ¬ (0 ≤ stepEase (sampleAnimation (α := ℚ)) 1800) ∧
    stepView (sampleAnimation (α := ℚ)) 1800 =
      (⟨-993 / 100, 61585 / 1000, 12317 / 100⟩, ⟨0, 0, 0⟩) ∧
    WithinControlsRange (stepView (sampleAnimation (α := ℚ)) 1800) ∧
    (animateStep idleControls (sampleAnimation (α := ℚ)) 1800 sampleState).1.cameraPosition =
      ⟨-993 / 100, 61585 / 1000, 12317 / 100⟩ ∧
    ¬ OnSegment
      (animateStep idleControls (sampleAnimation (α := ℚ)) 1800 sampleState).1.cameraPosition
      (sampleAnimation (α := ℚ)).startPosition (sampleAnimation (α := ℚ)).targetPosition := by
  have hp : stepProgress (sampleAnimation (α := ℚ)) 1800 = -1 / 10 := by
    simp [stepProgress, sampleAnimation]
    norm_num
  have he : stepEase (sampleAnimation (α := ℚ)) 1800 = -331 / 1000 := by
    rw [stepEase, hp]
    norm_num
  have hv : stepView (sampleAnimation (α := ℚ)) 1800 =
      (⟨-993 / 100, 61585 / 1000, 12317 / 100⟩, ⟨0, 0, 0⟩) := by
    simp only [stepView, Vector3.lerpVectors]
    rw [he]
    simp only [sampleAnimation]
    norm_num
  have hc : (animateStep idleControls (sampleAnimation (α := ℚ)) 1800
      sampleState).1.cameraPosition = ⟨-993 / 100, 61585 / 1000, 12317 / 100⟩ := by
    rw [animateStep_eq]
    simp only [idleControls, hv]
  refine ⟨hp, ?_, he, ?_, hv, ?_, hc, ?_⟩
  · simp [clamp]
    norm_num
  · rw [he]
    norm_num
  · rw [hv]
    simp only [WithinControlsRange, distanceSq]
    norm_num
  · rintro ⟨w, hw0, _, hw⟩
    rw [hc] at hw
    have hx := congrArg Vector3.x hw
    simp only [Vector3.lerpVectors, sampleAnimation] at hx
    linarith

/-- C12, amended. The interpolation weight of a step is
`1 - (1 - progress)³` with `progress = min(elapsed / 2000, 1)`, and it is
non-decreasing in the reading of `Date.now()`, that is in `elapsed`, for all
readings, those before the start time included. For a step whose reading is
not before the start time (`elapsed ≥ 0`): `progress` is
`clamp(elapsed / 2000, 0, 1)`, the weight lies in `[0, 1]`, the interpolated
camera position and look-at target lie on the segments from their start to
their destination values, and so do the camera position and the controls
target after the step when `controls.update()` keeps that view. -/
theorem animateStep_easing (controlsUpdate : ControlsUpdate α) (a : CameraAnimation α) :
    (∀ now : Int, stepEase a now = 1 - (1 - min ((((now - a.startTime : Int) : α)) / 2000) 1) ^ 3) ∧
    (∀ (now : Int) (s : State α),
      (animateStep controlsUpdate a now s).1.cameraPosition =
        (controlsUpdate (stepView a now)).1 ∧
      (animateStep controlsUpdate a now s).1.controlsTarget =
        (controlsUpdate (stepView a now)).2) ∧
    (∀ now1 now2 : Int, now1 ≤ now2 → stepEase a now1 ≤ stepEase a now2) ∧
    ∀ (now : Int) (s : State α), a.startTime ≤ now →
      stepProgress a now = clamp ((((now - a.startTime : Int) : α)) / 2000) 0 1 ∧
      (0 ≤ stepEase a now ∧ stepEase a now ≤ 1) ∧
      OnSegment (stepView a now).1 a.startPosition a.targetPosition ∧
      OnSegment (stepView a now).2 a.startLookAt a.lookAtPosition ∧
      (controlsUpdate (stepView a now) = stepView a now →
        OnSegment (animateStep controlsUpdate a now s).1.cameraPosition
          a.startPosition a.targetPosition ∧
        OnSegment (animateStep controlsUpdate a now s).1.controlsTarget
          a.startLookAt a.lookAtPosition) := by
  refine ⟨fun now => rfl, fun now s => ⟨rfl, rfl⟩, stepEase_mono a, ?_⟩
  intro now s helapsed
  have hmem := stepEase_mem a now helapsed
  have hpos : OnSegment (stepView a now).1 a.startPosition a.targetPosition :=
    ⟨stepEase a now, hmem.1, hmem.2, rfl⟩
  have htgt : OnSegment (stepView a now).2 a.startLookAt a.lookAtPosition :=
    ⟨stepEase a now, hmem.1, hmem.2, rfl⟩
  refine ⟨?_, hmem, hpos, htgt, ?_⟩
  · unfold clamp
    rw [max_eq_right]
    · rfl
    · exact stepProgress_nonneg a now helapsed
  · intro hcontrols
    rw [animateStep_eq]
    dsimp only
    rw [hcontrols]
    exact ⟨hpos, htgt⟩

theorem animateStep_easing_witness :
    (-5000 : Int) ≤ -3000 ∧
    stepEase (sampleAnimation (α := ℚ)) (-5000) ≤ stepEase (sampleAnimation (α := ℚ)) (-3000) ∧
    (sampleAnimation (α := ℚ)).startTime ≤ 3000 ∧
    idleControls (stepView (sampleAnimation (α := ℚ)) 3000) =
      stepView (sampleAnimation (α := ℚ)) 3000 ∧
    (0 ≤ stepEase (sampleAnimation (α := ℚ)) 3000 ∧
      stepEase (sampleAnimation (α := ℚ)) 3000 ≤ 1) ∧
    OnSegment (animateStep idleControls (sampleAnimation (α := ℚ)) 3000 sampleState).1.cameraPosition
      (sampleAnimation (α := ℚ)).startPosition (sampleAnimation (α := ℚ)).targetPosition :=
  ⟨by decide,
    (animateStep_easing idleControls (sampleAnimation (α := ℚ))).2.2.1 (-5000) (-3000)
      (by decide),
    by decide, rfl,
    ((animateStep_easing idleControls (sampleAnimation (α := ℚ))).2.2.2 3000 sampleState
      (by decide)).2.1,
    (((animateStep_easing idleControls (sampleAnimation (α := ℚ))).2.2.2 3000 sampleState
      (by decide)).2.2.2.2 rfl).1⟩

end Easing

section Scheduling

variable {α : Type} [LinearOrderedField α]

theorem stepProgress_lt_one_iff (a : CameraAnimation α) (now : Int) :
    stepProgress a now < 1 ↔ now - a.startTime < 2000 := by
  unfold stepProgress
  rw [min_lt_iff, div_lt_one (by norm_num : (0 : α) < 2000)]
  constructor
  · rintro (h | h)
    · exact_mod_cast h
    · exact absurd h (lt_irrefl 1)
  · intro h
    left
    exact_mod_cast h

theorem animateStep_requests_iff (controlsUpdate : ControlsUpdate α) (a : CameraAnimation α)
    (now : Int) (s : State α) :
    (animateStep controlsUpdate a now s).2 = true ↔ now - a.startTime < 2000 := by
  rw [animateStep_eq]
  simp only [decide_eq_true_eq]
  exact stepProgress_lt_one_iff a now

/-- With readings that grow by at least 1 from step to step, a chain whose
step `k` is at most `n` short of `elapsed = 2000` runs at most `n + 1` more
steps and then requests none, given fuel for them. -/
theorem runAnimation_bound (controlsUpdate : ControlsUpdate α) (a : CameraAnimation α)
    (clock : Nat → Int) (hclock : ∀ k, clock k + 1 ≤ clock (k + 1)) (n : Nat) :
    ∀ (fuel k : Nat) (s : State α), 2000 ≤ clock k - a.startTime + n → n < fuel →
      (runAnimation controlsUpdate a clock fuel k s).2.1 ≤ n + 1 ∧
      (runAnimation controlsUpdate a clock fuel k s).2.2 = false := by
  induction n with
  | zero =>
    intro fuel k s hn hfuel
    obtain ⟨f, rfl⟩ : ∃ f, fuel = f + 1 := ⟨fuel - 1, by omega⟩
    have hreq : ¬ ((animateStep controlsUpdate a (clock k) s).2 = true) := by
      rw [animateStep_requests_iff]
      simp only [Nat.cast_zero, add_zero] at hn
      omega
    simp only [runAnimation, hreq]
    simp
  | succ n ih =>
    intro fuel k s hn hfuel
    obtain ⟨f, rfl⟩ : ∃ f, fuel = f + 1 := ⟨fuel - 1, by omega⟩
    by_cases hreq : (animateStep controlsUpdate a (clock k) s).2 = true
    · have hnext : 2000 ≤ clock (k + 1) - a.startTime + n := by
        have := hclock k
        push_cast at hn
        omega
      obtain ⟨h1, h2⟩ := ih f (k + 1) (animateStep controlsUpdate a (clock k) s).1 hnext
        (by omega)
      simp only [runAnimation, hreq, if_true]
      exact ⟨by omega, h2⟩
    · simp only [runAnimation, hreq]
      simp

/-- C13. A run of `animateStep` requests another step exactly when its
elapsed time is below 2000 ms. Hence, when the first step reads a time not
before the start time and every later step reads a time at least 1 ms after
the step before it, the chain of steps of one `animateCamera` call runs at
most 2001 steps and its last step requests no other. -/
theorem animateCamera_steps_bound (controlsUpdate : ControlsUpdate α) (a : CameraAnimation α) :
    (∀ (now : Int) (s : State α),
      (animateStep controlsUpdate a now s).2 = true ↔ now - a.startTime < 2000) ∧
    ∀ (clock : Nat → Int) (fuel : Nat) (s : State α),
      a.startTime ≤ clock 0 → (∀ k, clock k + 1 ≤ clock (k + 1)) → 2001 ≤ fuel →
      (runAnimation controlsUpdate a clock fuel 0 s).2.1 ≤ 2001 ∧
      (runAnimation controlsUpdate a clock fuel 0 s).2.2 = false := by
  refine ⟨animateStep_requests_iff controlsUpdate a, ?_⟩
  intro clock fuel s hstart hclock hfuel
  exact runAnimation_bound controlsUpdate a clock hclock 2000 fuel 0 s
    (by push_cast; omega) (by omega)

theorem animateCamera_steps_bound_witness :
    (sampleAnimation (α := ℚ)).startTime ≤ (fun k : Nat => (2000 + 1000 * k : Int)) 0 ∧
    (∀ k : Nat, (fun k : Nat => (2000 + 1000 * k : Int)) k + 1 ≤
      (fun k : Nat => (2000 + 1000 * k : Int)) (k + 1)) ∧
    (runAnimation idleControls (sampleAnimation (α := ℚ))
      (fun k : Nat => (2000 + 1000 * k : Int)) 2001 0 sampleState).2.1 ≤ 2001 ∧
    (runAnimation idleControls (sampleAnimation (α := ℚ))
      (fun k : Nat => (2000 + 1000 * k : Int)) 2001 0 sampleState).2.2 = false :=
  ⟨by simp [sampleAnimation], by intro k; push_cast; omega,
    (animateCamera_steps_bound idleControls (sampleAnimation (α := ℚ))).2
      (fun k : Nat => (2000 + 1000 * k : Int)) 2001 sampleState
      (by simp [sampleAnimation]) (by intro k; push_cast; omega) (le_refl _)⟩

end Scheduling

section Clock

variable {α : Type} [LinearOrderedField α]

theorem animate_speedMultipliers (cos sin : α → α) (controlsUpdate : ControlsUpdate α)
    (deltaTime : α) (s : State α) :
    (animate cos sin controlsUpdate deltaTime s).speedMultipliers = s.speedMultipliers := by
  unfold animate
  cases h : s.isPaused <;> simp

theorem angleAfter_update (cos sin : α → α) (speedMultipliers : String → Option α)
    (elapsed deltaTime : α) (g g0 : OrbitGroup α)
    (h : AngleAfter speedMultipliers elapsed g g0) :
    AngleAfter speedMultipliers (elapsed + deltaTime)
      (updateOrbitGroup cos sin speedMultipliers deltaTime g) g0 := by
  obtain ⟨hn, hs, ha⟩ := h
  refine ⟨hn, hs, ?_⟩
  show g.planet.angle + g.planet.orbitSpeed * speedMultiplierOr (speedMultipliers g.name) *
    deltaTime = _
  rw [ha, hs, hn]
  ring

theorem forall₂_angleAfter_angles {speedMultipliers : String → Option α} {elapsed : α}
    {planets planets0 : List (OrbitGroup α)}
    (h : List.Forall₂ (AngleAfter speedMultipliers elapsed) planets planets0) :
    planets.map (fun g => (g.name, g.planet.angle)) =
      planets0.map (fun g => (g.name, g.planet.angle +
        g.planet.orbitSpeed * speedMultiplierOr (speedMultipliers g.name) * elapsed)) := by
  induction h with
  | nil => rfl
  | cons hg _ ih => simp only [List.map_cons, ih, hg.1, hg.2.2]

theorem clockInvariant_start (s0 : State α) : ClockInvariant s0 none ⟨s0, none⟩ := by
  refine ⟨rfl, rfl, ?_⟩
  rw [List.forall₂_same]
  intro g _
  exact ⟨rfl, rfl, by simp [elapsedSince]⟩

theorem clockInvariant_frame_unpaused (cos sin : α → α) (controlsUpdate : ControlsUpdate α)
    (s0 : State α) (now : α) (t : Timed α) (first : Option α)
    (h : ClockInvariant s0 first t) (hp : t.state.isPaused = false) :
    ClockInvariant s0 (firstOr first (some now)) (animateAt cos sin controlsUpdate now t) := by
  obtain ⟨hsm, hclock, hang⟩ := h
  unfold animateAt
  rw [if_neg (by simp [hp])]
  refine ⟨?_, ?_, ?_⟩
  · rw [animate_speedMultipliers]; exact hsm
  · cases first <;> cases hold : t.oldTime <;> simp [firstOr, getDelta]
  · dsimp only
    rw [animate_planets, if_neg (by simp [hp]), List.forall₂_map_left_iff, hsm]
    cases first with
    | none =>
      cases hold : t.oldTime with
      | some o => rw [hold] at hclock; simp at hclock
      | none =>
        rw [hold] at hang
        refine List.Forall₂.imp (fun g g0 hg => ?_) hang
        have hstep := angleAfter_update cos sin s0.speedMultipliers _ 0 g g0 hg
        simpa [elapsedSince, firstOr, getDelta] using hstep
    | some f =>
      cases hold : t.oldTime with
      | none => rw [hold] at hclock; simp at hclock
      | some o =>
        rw [hold] at hang
        refine List.Forall₂.imp (fun g g0 hg => ?_) hang
        have hstep := angleAfter_update cos sin s0.speedMultipliers _ (now - o) g g0 hg
        simpa [elapsedSince, firstOr, getDelta] using hstep

theorem clockInvariant_frame_paused (cos sin : α → α) (controlsUpdate : ControlsUpdate α)
    (s0 : State α) (now : α) (t : Timed α) (first : Option α)
    (h : ClockInvariant s0 first t) (hp : t.state.isPaused = true) :
    ClockInvariant s0 first (animateAt cos sin controlsUpdate now t) := by
  obtain ⟨hsm, hclock, hang⟩ := h
  unfold animateAt
  rw [if_pos hp]
  refine ⟨?_, hclock, ?_⟩
  · show (animate cos sin controlsUpdate 0 t.state).speedMultipliers = _
    rw [animate_speedMultipliers]; exact hsm
  · show List.Forall₂ _ (animate cos sin controlsUpdate 0 t.state).planets _
    rw [animate_planets, if_pos hp]
    exact hang

theorem animateAt_isPaused (cos sin : α → α) (controlsUpdate : ControlsUpdate α) (now : α)
    (t : Timed α) : (animateAt cos sin controlsUpdate now t).state.isPaused = t.state.isPaused := by
  unfold animateAt
  split
  · exact animate_isPaused _ _ _ _ _
  · exact animate_isPaused _ _ _ _ _

/-- The clock invariant along any sequence of frames and pause clicks. -/
theorem runEvents_invariant (cos sin : α → α) (controlsUpdate : ControlsUpdate α)
    (s0 : State α) (events : List (FrameEvent α)) :
    ∀ (t : Timed α) (first : Option α), ClockInvariant s0 first t →
      ClockInvariant s0 (firstOr first (firstUnpausedTime t.state.isPaused events))
        (runEvents cos sin controlsUpdate events t) := by
  induction events with
  | nil =>
    intro t first h
    have hfirst : firstOr first (firstUnpausedTime t.state.isPaused []) = first := by
      cases first <;> rfl
    rw [hfirst]
    exact h
  | cons e rest ih =>
    intro t first h
    show ClockInvariant s0 _
      (runEvents cos sin controlsUpdate rest (FrameEvent.run cos sin controlsUpdate t e))
    cases e with
    | pauseClick =>
      have h1 : ClockInvariant s0 first
          (FrameEvent.run cos sin controlsUpdate t FrameEvent.pauseClick) := h
      exact ih _ first h1
    | frame now =>
      cases hp : t.state.isPaused with
      | true =>
        have h1 := clockInvariant_frame_paused cos sin controlsUpdate s0 now t first h hp
        have h2 := ih _ first h1
        rw [animateAt_isPaused, hp] at h2
        simpa [firstUnpausedTime, hp] using h2
      | false =>
        have h1 := clockInvariant_frame_unpaused cos sin controlsUpdate s0 now t first h hp
        have h2 := ih _ _ h1
        have hfirst : ∀ later : Option α,
            firstOr (firstOr first (some now)) later = firstOr first (some now) := by
          intro later
          cases first <;> rfl
        rw [hfirst] at h2
        simpa [firstUnpausedTime, hp] using h2

/-- C14. With `getDelta()` returning the time since its previous call (and
`0` at the first call): a paused frame does not touch the clock, and an
unpaused frame after a call at `old` uses `deltaTime = now - old`, whatever
number of paused frames lie between. Hence, after any sequence of frames and
pause clicks (no slider touched) followed by an unpaused frame at time `t`,
every planet's angle is its initial angle plus
`orbitSpeed * m * (t - tFirst)`, `tFirst` being the time of the first
unpaused frame and `m` the multiplier the frame uses,
`speedMultipliers[name] || 1.0`. -/
theorem animateAt_defers_paused_time (cos sin : α → α) (controlsUpdate : ControlsUpdate α) :
    (∀ (now : α) (t : Timed α), t.state.isPaused = true →
      (animateAt cos sin controlsUpdate now t).oldTime = t.oldTime) ∧
    (∀ (now old : α) (t : Timed α), t.state.isPaused = false → t.oldTime = some old →
      animateAt cos sin controlsUpdate now t =
        ⟨animate cos sin controlsUpdate (now - old) t.state, some now⟩) ∧
    ∀ (s0 : State α) (events : List (FrameEvent α)) (t : α),
      (runEvents cos sin controlsUpdate events ⟨s0, none⟩).state.isPaused = false →
      ∃ tFirst : α,
        firstUnpausedTime s0.isPaused (events ++ [FrameEvent.frame t]) = some tFirst ∧
        (runEvents cos sin controlsUpdate (events ++ [FrameEvent.frame t])
            ⟨s0, none⟩).state.planets.map (fun g => (g.name, g.planet.angle)) =
          s0.planets.map (fun g => (g.name, g.planet.angle +
            g.planet.orbitSpeed * speedMultiplierOr (s0.speedMultipliers g.name) *
              (t - tFirst))) := by
  refine ⟨?_, ?_, ?_⟩
  · intro now t hp
    unfold animateAt
    rw [if_pos hp]
  · intro now old t hp hold
    unfold animateAt
    rw [if_neg (by simp [hp]), hold]
    rfl
  · intro s0 events t hp
    have hinv := runEvents_invariant cos sin controlsUpdate s0 (events ++ [FrameEvent.frame t])
      ⟨s0, none⟩ none (clockInvariant_start s0)
    have hrun : runEvents cos sin controlsUpdate (events ++ [FrameEvent.frame t]) ⟨s0, none⟩ =
        animateAt cos sin controlsUpdate t (runEvents cos sin controlsUpdate events ⟨s0, none⟩) := by
      simp [runEvents, List.foldl_append, FrameEvent.run]
    have hold : (runEvents cos sin controlsUpdate (events ++ [FrameEvent.frame t])
        ⟨s0, none⟩).oldTime = some t := by
      rw [hrun]
      unfold animateAt
      rw [if_neg (by simp [hp])]
      dsimp only
      cases (runEvents cos sin controlsUpdate events ⟨s0, none⟩).oldTime <;> rfl
    obtain ⟨_, hclock, hang⟩ := hinv
    rw [hold] at hclock hang
    have hfirst : firstOr none (firstUnpausedTime s0.isPaused (events ++ [FrameEvent.frame t])) =
        firstUnpausedTime s0.isPaused (events ++ [FrameEvent.frame t]) := rfl
    rw [hfirst] at hclock hang
    cases hf : firstUnpausedTime s0.isPaused (events ++ [FrameEvent.frame t]) with
    | none => rw [hf] at hclock; simp at hclock
    | some tFirst =>
      rw [hf] at hang
      exact ⟨tFirst, rfl, forall₂_angleAfter_angles hang⟩

theorem animateAt_defers_paused_time_witness :
    (runEvents id id idleControls
      [FrameEvent.frame 0, FrameEvent.pauseClick, FrameEvent.frame 5, FrameEvent.pauseClick]
      ⟨sampleState (α := ℚ), none⟩).state.isPaused = false ∧
    ∃ tFirst : ℚ,
      firstUnpausedTime (sampleState (α := ℚ)).isPaused
        ([FrameEvent.frame 0, FrameEvent.pauseClick, FrameEvent.frame 5, FrameEvent.pauseClick]
          ++ [FrameEvent.frame 10]) = some tFirst ∧
      (runEvents id id idleControls
          ([FrameEvent.frame 0, FrameEvent.pauseClick, FrameEvent.frame 5,
            FrameEvent.pauseClick] ++ [FrameEvent.frame 10])
          ⟨sampleState (α := ℚ), none⟩).state.planets.map (fun g => (g.name, g.planet.angle)) =
        (sampleState (α := ℚ)).planets.map (fun g => (g.name, g.planet.angle +
          g.planet.orbitSpeed * speedMultiplierOr ((sampleState (α := ℚ)).speedMultipliers g.name) *
            (10 - tFirst))) :=
  ⟨by simp [runEvents, FrameEvent.run, animateAt_isPaused, pauseClick, sampleState, construct],
    (animateAt_defers_paused_time id id idleControls).2.2 sampleState
      [FrameEvent.frame 0, FrameEvent.pauseClick, FrameEvent.frame 5, FrameEvent.pauseClick] 10
      (by simp [runEvents, FrameEvent.run, animateAt_isPaused, pauseClick, sampleState,
        construct])⟩

end Clock

end SolarSystem
